import Mathlib

/-!
Shallow embedding of the hand-games frontend game logic
(src/frontend/src/games/*.jsx) and verification of its specification.

Coordinates and pixel geometry are modelled over the reals (the source
uses JavaScript floating point numbers; real arithmetic is the idealised
semantics).  Hand-landmark coordinates used by the gesture classifiers
are modelled over the rationals, since those classifiers only compare,
add and scale coordinates.  Wall-clock timestamps are naturals
(milliseconds).  Randomness (random shapes, gestures, directions, ball
positions) is modelled by oracle inputs passed to each per-frame step
function.
-/

open scoped Classical

namespace HandGames

/-- A 2-D point in canvas pixel space (or normalized space), real-valued. -/
structure Pt where
  x : ℝ
  y : ℝ

/-- JavaScript Math.hypot for two arguments. -/
noncomputable def hypot (dx dy : ℝ) : ℝ := Real.sqrt (dx * dx + dy * dy)

/-! ## ShapeTracing (src/frontend/src/games/ShapeTracing.jsx, ShapeTracing component) -/

namespace ShapeTracing

inductive ShapeType
  | circle
  | square
  deriving DecidableEq

/-- Margin of error in pixels for hitting checkpoints. -/
def TOLERANCE : ℝ := 25

/-- Number of checkpoints per shape. -/
def CHECKPOINTS : ℕ := 16

/-- The completion threshold used by detectFunction:
Math.floor(CHECKPOINTS * 0.9). -/
noncomputable def scoreThreshold : ℕ := Nat.floor ((CHECKPOINTS : ℝ) * 0.9)

/-- Angle of circle checkpoint i: (i / CHECKPOINTS) * Math.PI * 2. -/
noncomputable def cpAngle (i : ℕ) : ℝ := ((i : ℝ) / (CHECKPOINTS : ℝ)) * (Real.pi * 2)

/-- x-coordinate of circle checkpoint i. -/
noncomputable def checkpointX (cX radius : ℝ) (i : ℕ) : ℝ :=
  cX + radius * Real.cos (cpAngle i)

/-- y-coordinate of circle checkpoint i. -/
noncomputable def checkpointY (cY radius : ℝ) (i : ℕ) : ℝ :=
  cY + radius * Real.sin (cpAngle i)

/-- The per-checkpoint distance test of checkCircleHit:
Math.hypot(checkpointX - tipX, checkpointY - tipY) < TOLERANCE. -/
noncomputable def circleHitTest (cX cY radius tipX tipY : ℝ) (i : ℕ) : Prop :=
  hypot (checkpointX cX radius i - tipX) (checkpointY cY radius i - tipY) < TOLERANCE

/-- One iteration of the checkCircleHit loop body: conditionally add index i. -/
noncomputable def hitStep (P : ℕ → Prop) (s : Finset ℕ) (i : ℕ) : Finset ℕ :=
  if P i then insert i s else s

/-- checkCircleHit: the for-loop over i = 0 .. CHECKPOINTS-1 adding every
checkpoint index within TOLERANCE of the fingertip to the hit set. -/
noncomputable def checkCircleHit (cX cY radius tipX tipY : ℝ) (s : Finset ℕ) : Finset ℕ :=
  (List.range CHECKPOINTS).foldl (hitStep (circleHitTest cX cY radius tipX tipY)) s

/-- The sides array of checkSquareHit: 12 checkpoint points, four on the
left edge, four on the top edge, four on the right edge. -/
noncomputable def squareSides (cX cY size : ℝ) : List Pt :=
  let left := cX - size / 2
  let right := cX + size / 2
  let top := cY - size / 2
  [ ⟨left, top + (size / ((CHECKPOINTS : ℝ) / 4)) * 0⟩,
    ⟨left, top + (size / ((CHECKPOINTS : ℝ) / 4)) * 1⟩,
    ⟨left, top + (size / ((CHECKPOINTS : ℝ) / 4)) * 2⟩,
    ⟨left, top + (size / ((CHECKPOINTS : ℝ) / 4)) * 3⟩,
    ⟨left + (size / ((CHECKPOINTS : ℝ) / 4)) * 0, top⟩,
    ⟨left + (size / ((CHECKPOINTS : ℝ) / 4)) * 1, top⟩,
    ⟨left + (size / ((CHECKPOINTS : ℝ) / 4)) * 2, top⟩,
    ⟨left + (size / ((CHECKPOINTS : ℝ) / 4)) * 3, top⟩,
    ⟨right, top + (size / ((CHECKPOINTS : ℝ) / 4)) * 0⟩,
    ⟨right, top + (size / ((CHECKPOINTS : ℝ) / 4)) * 1⟩,
    ⟨right, top + (size / ((CHECKPOINTS : ℝ) / 4)) * 2⟩,
    ⟨right, top + (size / ((CHECKPOINTS : ℝ) / 4)) * 3⟩ ]

/-- The per-edge distance test of checkSquareHit. -/
noncomputable def squareHitTest (tipX tipY : ℝ) (p : Pt) : Prop :=
  hypot (p.x - tipX) (p.y - tipY) < TOLERANCE

/-- checkSquareHit: sides.forEach((edge, idx) => if dist < TOLERANCE add idx). -/
noncomputable def checkSquareHit (cX cY size tipX tipY : ℝ) (s : Finset ℕ) : Finset ℕ :=
  ((squareSides cX cY size).enum).foldl
    (fun acc p => if squareHitTest tipX tipY p.2 then insert p.1 acc else acc) s

/-- isOnShape: near-outline test, dispatching on the active shape. -/
noncomputable def isOnShape (shape : ShapeType) (cX cY radius size tipX tipY : ℝ) : Prop :=
  match shape with
  | .circle => |hypot (tipX - cX) (tipY - cY) - radius| < TOLERANCE
  | .square =>
      let left := cX - size / 2
      let right := cX + size / 2
      let top := cY - size / 2
      let bottom := cY + size / 2
      (tipX ≥ left - TOLERANCE ∧ tipX ≤ right + TOLERANCE ∧
       tipY ≥ top - TOLERANCE ∧ tipY ≤ bottom + TOLERANCE) ∧
      (|tipX - left| < TOLERANCE ∨ |tipX - right| < TOLERANCE ∨
       |tipY - top| < TOLERANCE ∨ |tipY - bottom| < TOLERANCE)

/-- The mutable refs of the ShapeTracing component. -/
structure STState where
  shapeType : Option ShapeType
  checkpointsHit : Finset ℕ
  trailPoints : List (Pt × ℕ)
  drawingStarted : Bool

/-- Per-tick input of detectFunction: canvas size, timestamp, the index
fingertip (landmark 8, normalized) when a hand is detected, and the
random-shape oracle consumed when no shape is active. -/
structure STFrame where
  width : ℝ
  height : ℝ
  now : ℕ
  tip : Option Pt
  randShape : ShapeType

/-- detectFunction of ShapeTracing, as a pure step on the ref state.
Returns the new state and the score delta emitted this tick. -/
noncomputable def detectStep (st : STState) (f : STFrame) : STState × ℕ :=
  let shortSide := min f.width f.height
  let dynamicRadius := shortSide * 0.3
  let dynamicSize := shortSide * 0.6
  let centerX := f.width / 2
  let centerY := f.height / 2
  let sel :=
    match st.shapeType with
    | none => (f.randShape, (∅ : Finset ℕ), ([] : List (Pt × ℕ)), false)
    | some sh => (sh, st.checkpointsHit, st.trailPoints, st.drawingStarted)
  let shape := sel.1
  let proc :=
    match f.tip with
    | none => (sel.2.1, sel.2.2.1, sel.2.2.2)
    | some tip =>
        let tipX := tip.x * f.width
        let tipY := tip.y * f.height
        let started1 :=
          sel.2.2.2 ||
            (if isOnShape shape centerX centerY dynamicRadius dynamicSize tipX tipY
             then true else false)
        let trail1 :=
          if started1 then sel.2.2.1 ++ [((⟨tipX, tipY⟩ : Pt), f.now)] else sel.2.2.1
        let s1 :=
          match shape with
          | .circle => checkCircleHit centerX centerY dynamicRadius tipX tipY sel.2.1
          | .square => checkSquareHit centerX centerY dynamicSize tipX tipY sel.2.1
        (s1, trail1, started1)
  if scoreThreshold ≤ proc.1.card then
    (⟨none, ∅, [], false⟩, 1)
  else
    (⟨some shape, proc.1, proc.2.1, proc.2.2⟩, 0)

/-- Iterate detectFunction over a list of frames, collecting the emitted
score deltas in order. -/
noncomputable def detectRun (st : STState) (fs : List STFrame) : STState × List ℕ :=
  fs.foldl (fun p f =>
    let r := detectStep p.1 f
    (r.1, p.2 ++ [r.2])) (st, [])

end ShapeTracing

/-! ## Hand landmarks and gesture labels (shared by MemoryMatch and SimonSays) -/

/-- A hand-landmark point; the classifiers only compare/average coordinates,
so rationals model them exactly. -/
structure LPoint where
  x : ℚ
  y : ℚ
  deriving DecidableEq

/-- One detected hand: its landmark points, indexed as the JavaScript
array landmarks[0..20] is. -/
def Landmarks : Type := ℕ → LPoint

/-- The gesture labels of GESTURES = [open, two, rock, thumbs_up, fist]. -/
inductive Gesture
  | openHand
  | two
  | rock
  | thumbsUp
  | fist
  deriving DecidableEq

/-! ## MemoryMatch (src/frontend/src/games/ShapeTracing.jsx, MemoryMatch component) -/

namespace MemoryMatch

/-- Seconds to complete a sequence. -/
def ROUND_TIME : ℕ := 8

/-- checkGesture of the MemoryMatch component: fixed 0.05 vertical
thresholds around the palm-base y coordinate. -/
def checkGesture (lm : Landmarks) (g : Gesture) : Bool :=
  let palmBase := lm 0
  let indexTip := lm 8
  let middleTip := lm 12
  let ringTip := lm 16
  let pinkyTip := lm 20
  let thumbTip := lm 4
  let thumbIp := lm 3
  let handCenterY := palmBase.y
  let isFingerUp : LPoint → Bool := fun tip => decide (tip.y < handCenterY - 0.05)
  let isFingerDown : LPoint → Bool := fun tip => decide (tip.y > handCenterY + 0.05)
  let isOpen :=
    isFingerUp indexTip && isFingerUp middleTip && isFingerUp ringTip &&
      isFingerUp pinkyTip && decide (thumbTip.x < palmBase.x)
  let isTwo :=
    isFingerUp indexTip && isFingerUp middleTip && isFingerDown ringTip &&
      isFingerDown pinkyTip
  let isRock :=
    isFingerUp indexTip && isFingerDown middleTip && isFingerDown ringTip &&
      isFingerUp pinkyTip
  let isThumbsUp :=
    decide (|thumbTip.y - thumbIp.y| > 0.04) && isFingerDown indexTip &&
      isFingerDown middleTip && isFingerDown ringTip && isFingerDown pinkyTip
  let isFist :=
    isFingerDown indexTip && isFingerDown middleTip && isFingerDown ringTip &&
      isFingerDown pinkyTip && decide (|thumbTip.y - palmBase.y| < 0.1)
  match g with
  | .openHand => isOpen
  | .two => isTwo
  | .rock => isRock
  | .thumbsUp => isThumbsUp
  | .fist => isFist

/-- The mutable refs of the MemoryMatch component. -/
structure MMState where
  seq : List Gesture
  step : ℕ
  roundTimer : ℕ
  deriving DecidableEq

/-- detectFunction of MemoryMatch as a pure step: the two randomGesture()
calls of a new round are supplied by the rand oracle pair. -/
def detectStep (st : MMState) (now : ℕ) (rand : Gesture × Gesture)
    (lm : Option Landmarks) : MMState × ℕ :=
  let st0 :=
    if st.seq.length = 0 ∨ ROUND_TIME * 1000 < now - st.roundTimer then
      (⟨[rand.1, rand.2], 0, now⟩ : MMState)
    else st
  match lm with
  | none => (st0, 0)
  | some l =>
      let currentTarget := st0.seq[st0.step]?
      let hit :=
        match currentTarget with
        | some g => checkGesture l g
        | none => false
      if hit then
        let step1 := st0.step + 1
        if st0.seq.length ≤ step1 then ((⟨[], 0, st0.roundTimer⟩ : MMState), 1)
        else ((⟨st0.seq, step1, st0.roundTimer⟩ : MMState), 0)
      else (st0, 0)

end MemoryMatch

/-! ## SimonSays (src/frontend/src/games/SimonSays.jsx) -/

namespace SimonSays

def ROUND_TIME : ℕ := 5

/-- checkGesture of SimonSays: palm center averaged over landmarks
[0,1,5,9,13,17] and thresholds scaled by the palm-to-middle-MCP distance. -/
def checkGesture (lm : Landmarks) (g : Gesture) : Bool :=
  let palmIndices : List ℕ := [0, 1, 5, 9, 13, 17]
  let acc := palmIndices.foldl
    (fun acc i => (acc.1 + (lm i).x, acc.2 + (lm i).y)) ((0 : ℚ), (0 : ℚ))
  let palmX := acc.1 / 6
  let palmY := acc.2 / 6
  let mcpY := (lm 9).y
  let driveDist := |mcpY - palmY|
  let upThresh := palmY - driveDist * 0.5
  let downThresh := palmY + driveDist * 0.3
  let isUp : LPoint → Bool := fun pt => decide (pt.y < upThresh)
  let isDown : LPoint → Bool := fun pt => decide (pt.y > downThresh)
  let thumbTip := lm 4
  let indexTip := lm 8
  let middleTip := lm 12
  let ringTip := lm 16
  let pinkyTip := lm 20
  match g with
  | .openHand =>
      isUp indexTip && isUp middleTip && isUp ringTip && isUp pinkyTip &&
        decide (|thumbTip.x - palmX| > driveDist * 0.3)
  | .two => isUp indexTip && isUp middleTip && isDown ringTip && isDown pinkyTip
  | .rock => isUp indexTip && isDown middleTip && isDown ringTip && isUp pinkyTip
  | .thumbsUp =>
      isUp thumbTip && isDown indexTip && isDown middleTip && isDown ringTip &&
        isDown pinkyTip
  | .fist =>
      isDown indexTip && isDown middleTip && isDown ringTip && isDown pinkyTip &&
        isDown thumbTip

/-- The mutable refs of the SimonSays component. -/
structure SimState where
  gesture : Option Gesture
  timer : ℕ
  deriving DecidableEq

/-- detectFunction of SimonSays as a pure step. -/
def detectStep (st : SimState) (now : ℕ) (rand : Gesture)
    (lm : Option Landmarks) : SimState × ℕ :=
  let st0 :=
    if st.gesture = none ∨ ROUND_TIME * 1000 < now - st.timer then
      (⟨some rand, now⟩ : SimState)
    else st
  let timeLeft : ℚ := max 0 ((ROUND_TIME : ℚ) - ((now - st0.timer : ℕ) : ℚ) / 1000)
  match lm with
  | none => (st0, 0)
  | some l =>
      let hit :=
        match st0.gesture with
        | some g => checkGesture l g
        | none => false
      if 0 < timeLeft ∧ hit = true then ((⟨none, now⟩ : SimState), 1)
      else (st0, 0)

end SimonSays

/-! ## SwipeChallenge (src/frontend/src/games/SwipeChallenge.jsx) -/

namespace SwipeChallenge

def ROUND_TIME : ℕ := 5

inductive Direction
  | left
  | right
  | up
  | down
  deriving DecidableEq

/-- getSwipeDirection: dominant axis then sign. -/
noncomputable def getSwipeDirection (deltaX deltaY : ℝ) : Direction :=
  if |deltaX| > |deltaY| then (if deltaX > 0 then .right else .left)
  else (if deltaY > 0 then .down else .up)

/-- The mutable refs of the SwipeChallenge component. -/
structure SWState where
  currentDirection : Option Direction
  swipeStart : Option Pt
  roundTimer : ℕ

/-- detectFunction of SwipeChallenge as a pure step. -/
noncomputable def detectStep (st : SWState) (now : ℕ) (rand : Direction)
    (width height : ℝ) (tip : Option Pt) : SWState × ℕ :=
  let st0 :=
    if st.currentDirection = none ∨ ROUND_TIME * 1000 < now - st.roundTimer then
      (⟨some rand, none, now⟩ : SWState)
    else st
  match tip with
  | none => (st0, 0)
  | some t =>
      let tipX := t.x * width
      let tipY := t.y * height
      match st0.swipeStart with
      | none => ((⟨st0.currentDirection, some ⟨tipX, tipY⟩, st0.roundTimer⟩ : SWState), 0)
      | some s0 =>
          let deltaX := tipX - s0.x
          let deltaY := tipY - s0.y
          let distance := hypot deltaX deltaY
          if distance > 80 then
            let detectedDirection := getSwipeDirection deltaX deltaY
            let delta : ℕ := if some detectedDirection = st0.currentDirection then 1 else 0
            ((⟨none, none, now⟩ : SWState), delta)
          else (st0, 0)

end SwipeChallenge

/-! ## QuickReaction (src/frontend/src/games/QuickReaction.jsx) -/

namespace QuickReaction

def SPAWN_INTERVAL : ℕ := 2000

def TARGET_RADIUS : ℝ := 30

/-- The mutable refs of the QuickReaction component; a target is a
position plus its spawn time. -/
structure QRState where
  target : Option (Pt × ℕ)
  lastSpawn : ℕ

/-- detectFunction of QuickReaction as a pure step. -/
noncomputable def detectStep (st : QRState) (now : ℕ) (randPos : Pt)
    (width height : ℝ) (tip : Option Pt) : QRState × ℕ :=
  let st0 :=
    if st.target = none ∨ SPAWN_INTERVAL < now - st.lastSpawn then
      (⟨some (randPos, now), now⟩ : QRState)
    else st
  match tip with
  | none => (st0, 0)
  | some t =>
      match st0.target with
      | none => (st0, 0)
      | some tgt =>
          let tipX := t.x * width
          let tipY := t.y * height
          if hypot (tipX - tgt.1.x) (tipY - tgt.1.y) < TARGET_RADIUS then
            ((⟨none, now⟩ : QRState), 1)
          else (st0, 0)

end QuickReaction

/-! ## BallGame (src/frontend/src/games/BallGame.jsx) -/

namespace BallGame

def BALL_COUNT : ℕ := 4
def FLASH_TIME : ℕ := 800
def WAIT_TIME : ℕ := 300
def BALL_RADIUS : ℝ := 30
def FEEDBACK_TIME : ℕ := 500

inductive BGPhase
  | init
  | showPhase
  | input
  deriving DecidableEq

/-- The effect of a tick on the externally owned score: the component
either leaves it alone, calls setScore(0), or calls setScore(prev + 1). -/
inductive ScoreEff
  | keep
  | setZero
  | plusOne
  deriving DecidableEq

def applyScoreEff : ScoreEff → ℕ → ℕ
  | .keep, s => s
  | .setZero, _ => 0
  | .plusOne, s => s + 1

/-- JavaScript truthiness of the tappedIdxRef guard: !tappedIdxRef.current
is true when the ref is null and also when it holds the number 0. -/
def jsFalsy : Option ℕ → Bool
  | none => true
  | some n => n == 0

/-- The mutable refs of the BallGame component.  pending records the fire
times of setTimeout callbacks that have been scheduled and not yet run. -/
structure BGState where
  balls : List Pt
  sequence : List ℕ
  gameState : BGPhase
  flashIndex : ℕ
  lastTime : ℕ
  inputIndex : ℕ
  tappedIdx : Option ℕ
  feedback : Option Bool
  pending : List ℕ

/-- detectFunction of BallGame as a pure step.  randBalls and randSeq are
the randomness consumed by the init phase; the returned ScoreEff is the
setScore call performed synchronously during the tick. -/
noncomputable def detectStep (st : BGState) (now : ℕ) (width height : ℝ)
    (randBalls : List Pt) (randSeq : ℕ) (tip : Option Pt) : BGState × ScoreEff :=
  let initRes :=
    if st.gameState = .init then
      ((⟨randBalls, [randSeq], .showPhase, 0, now, 0, none, none, st.pending⟩ : BGState),
        ScoreEff.setZero)
    else (st, ScoreEff.keep)
  let st1 := initRes.1
  let st2 :=
    if st1.gameState = .showPhase ∧ FLASH_TIME + WAIT_TIME < now - st1.lastTime then
      let a := { st1 with lastTime := now, flashIndex := st1.flashIndex + 1 }
      if a.sequence.length ≤ a.flashIndex then
        { a with gameState := .input, inputIndex := 0, tappedIdx := none }
      else a
    else st1
  let st3 :=
    if st2.gameState = .input then
      match tip with
      | none => st2
      | some t =>
          let tipX := t.x * width
          let tipY := t.y * height
          let r := st2.balls.enum.foldl
            (fun (acc : BGState × Bool) p =>
              if hypot (p.2.x - tipX) (p.2.y - tipY) < BALL_RADIUS then
                if jsFalsy acc.1.tappedIdx then
                  let isCorrect := decide (acc.1.sequence[acc.1.inputIndex]? = some p.1)
                  ({ acc.1 with
                      tappedIdx := some p.1
                      feedback := some isCorrect
                      pending := acc.1.pending ++ [now + FEEDBACK_TIME] }, true)
                else (acc.1, true)
              else acc)
            (st2, false)
          if r.2 = false ∧ r.1.feedback = none then { r.1 with tappedIdx := none }
          else r.1
    else st2
  (st3, initRes.2)

/-- The body of the setTimeout callback scheduled on a tap, run
FEEDBACK_TIME later: it reads the refs at fire time.  randSeq is the
random index appended on sequence completion. -/
def fireTimeout (st : BGState) (fireNow : ℕ) (randSeq : ℕ) : BGState × ScoreEff :=
  if st.feedback = some false then
    ({ st with gameState := .init, feedback := none, tappedIdx := none,
               pending := st.pending.tail }, ScoreEff.keep)
  else
    let ii := st.inputIndex + 1
    if ii = st.sequence.length then
      ({ st with inputIndex := ii, sequence := st.sequence ++ [randSeq],
                 flashIndex := 0, lastTime := fireNow, gameState := .showPhase,
                 feedback := none, tappedIdx := none,
                 pending := st.pending.tail }, ScoreEff.plusOne)
    else
      ({ st with inputIndex := ii, feedback := none, tappedIdx := none,
                 pending := st.pending.tail }, ScoreEff.keep)

end BallGame

/-! ## Concrete inputs used to instantiate and to refute claims -/

namespace ShapeTracing

/-- Fresh initial ref state of the ShapeTracing component. -/
def initialState : STState := ⟨none, ∅, [], false⟩

/-- Fingertip of the sweep run: exactly at circle checkpoint k of a round
on a 1000 x 1000 canvas (center (500, 500), radius 300), in normalized
coordinates. -/
noncomputable def sweepTip (k : ℕ) : Pt :=
  ⟨checkpointX 500 300 k / 1000, checkpointY 500 300 k / 1000⟩

/-- Frame k of the sweep run: timestamp k, hand present, tip at circle
checkpoint k. -/
noncomputable def sweepFrame (k : ℕ) : STFrame :=
  ⟨1000, 1000, k, some (sweepTip k), ShapeType.circle⟩

/-- The trail recorded after the first k sweep frames. -/
noncomputable def sweepTrail (k : ℕ) : List (Pt × ℕ) :=
  (List.range k).map fun j =>
    ((⟨checkpointX 500 300 j, checkpointY 500 300 j⟩ : Pt), j)

end ShapeTracing

/-- A landmark configuration satisfying both the ThumbsUp and the Fist
predicate of the MemoryMatch classifier: palm base and thumb tip at
(0.5, 0.5), the four fingertips at y = 0.6 (folded), thumb IP at
(0.5, 0.3). -/
def overlapLandmarks : Landmarks := fun i =>
  if i = 3 then ⟨0.5, 0.3⟩
  else if i = 8 ∨ i = 12 ∨ i = 16 ∨ i = 20 then ⟨0.5, 0.6⟩
  else ⟨0.5, 0.5⟩

namespace BallGame

/-- Four balls in a row; ball 0 is at (100, 100). -/
noncomputable def tapBalls : List Pt := [⟨100, 100⟩, ⟨400, 100⟩, ⟨700, 100⟩, ⟨1000, 100⟩]

/-- An Input-phase state reached after showing the 1-element sequence [0]:
no touch registered, no feedback, no pending timeout. -/
noncomputable def tapState : BGState := ⟨tapBalls, [0], .input, 1, 0, 0, none, none, []⟩

end BallGame

/-! ## Toolkit lemmas about Math.hypot -/

theorem hypot_eq_complexAbs (a b : ℝ) : hypot a b = Complex.abs ⟨a, b⟩ := by
  rw [hypot, Complex.abs_apply, Complex.normSq_mk]

theorem hypot_nonneg (a b : ℝ) : 0 ≤ hypot a b := Real.sqrt_nonneg _

theorem hypot_zero : hypot 0 0 = 0 := by simp [hypot]

theorem hypot_neg (a b : ℝ) : hypot (-a) (-b) = hypot a b := by
  unfold hypot
  congr 1
  ring

theorem abs_le_hypot_left (a b : ℝ) : |a| ≤ hypot a b := by
  rw [hypot, ← Real.sqrt_mul_self_eq_abs]
  exact Real.sqrt_le_sqrt (by nlinarith [mul_self_nonneg b])

theorem abs_le_hypot_right (a b : ℝ) : |b| ≤ hypot a b := by
  rw [hypot, ← Real.sqrt_mul_self_eq_abs]
  exact Real.sqrt_le_sqrt (by nlinarith [mul_self_nonneg a])

theorem hypot_x_zero (a : ℝ) : hypot a 0 = |a| := by
  rw [hypot, ← Real.sqrt_mul_self_eq_abs]
  norm_num

theorem abs_hypot_sub_hypot_le (a b c d : ℝ) :
    |hypot a b - hypot c d| ≤ hypot (a - c) (b - d) := by
  rw [hypot_eq_complexAbs, hypot_eq_complexAbs, hypot_eq_complexAbs]
  have h := Complex.abs.abs_abv_sub_le_abv_sub (⟨a, b⟩ : ℂ) (⟨c, d⟩ : ℂ)
  have he : (⟨a, b⟩ : ℂ) - ⟨c, d⟩ = (⟨a - c, b - d⟩ : ℂ) := by
    apply Complex.ext <;> simp
  rw [he] at h
  exact h

theorem hypot_cos_sin (r θ : ℝ) (hr : 0 ≤ r) :
    hypot (r * Real.cos θ) (r * Real.sin θ) = r := by
  rw [hypot]
  have h : r * Real.cos θ * (r * Real.cos θ) + r * Real.sin θ * (r * Real.sin θ) = r ^ 2 := by
    have hs := Real.sin_sq_add_cos_sq θ
    nlinarith [hs]
  rw [h, Real.sqrt_sq hr]

theorem le_hypot_of_sq_le (t a b : ℝ) (h : t ^ 2 ≤ a * a + b * b) : t ≤ hypot a b :=
  Real.le_sqrt_of_sq_le h

theorem hypot_lt_iff (a b t : ℝ) (ht : 0 < t) : hypot a b < t ↔ a * a + b * b < t ^ 2 :=
  Real.sqrt_lt' ht

/-! ## Toolkit lemmas about the hit-set folds -/

namespace ShapeTracing

theorem scoreThreshold_eq : scoreThreshold = 14 := by
  have h : ((CHECKPOINTS : ℕ) : ℝ) * 0.9 = 14.4 := by norm_num [CHECKPOINTS]
  rw [scoreThreshold, h]
  rw [Nat.floor_eq_iff (by norm_num)]
  norm_num

theorem hitStep_subset (P : ℕ → Prop) (s : Finset ℕ) (i : ℕ) :
    hitStep P s i ⊆ insert i s := by
  unfold hitStep
  split
  · exact Finset.Subset.refl _
  · exact Finset.subset_insert _ _

theorem subset_hitStep (P : ℕ → Prop) (s : Finset ℕ) (i : ℕ) : s ⊆ hitStep P s i := by
  unfold hitStep
  split
  · exact Finset.subset_insert _ _
  · exact Finset.Subset.refl _

theorem foldl_hitStep_subset (P : ℕ → Prop) (l : List ℕ) (s : Finset ℕ) :
    l.foldl (hitStep P) s ⊆ s ∪ l.toFinset := by
  induction l generalizing s with
  | nil => simp
  | cons i t ih =>
      simp only [List.foldl_cons, List.toFinset_cons]
      refine (ih (hitStep P s i)).trans ?_
      intro x hx
      rcases Finset.mem_union.1 hx with h | h
      · rcases Finset.mem_insert.1 (hitStep_subset P s i h) with h1 | h1
        · exact Finset.mem_union.2 (Or.inr (Finset.mem_insert.2 (Or.inl h1)))
        · exact Finset.mem_union.2 (Or.inl h1)
      · exact Finset.mem_union.2 (Or.inr (Finset.mem_insert.2 (Or.inr h)))

theorem subset_foldl_hitStep (P : ℕ → Prop) (l : List ℕ) (s : Finset ℕ) :
    s ⊆ l.foldl (hitStep P) s := by
  induction l generalizing s with
  | nil => exact Finset.Subset.refl _
  | cons i t ih => exact (subset_hitStep P s i).trans (ih _)

theorem foldl_hitStep_of_not (P : ℕ → Prop) (l : List ℕ) (s : Finset ℕ)
    (h : ∀ i ∈ l, ¬ P i) : l.foldl (hitStep P) s = s := by
  induction l generalizing s with
  | nil => rfl
  | cons i t ih =>
      have h1 : hitStep P s i = s := if_neg (h i (List.mem_cons_self i t))
      simp only [List.foldl_cons, h1]
      exact ih _ (fun j hj => h j (List.mem_cons_of_mem i hj))

theorem foldl_hitStep_of_mem (P : ℕ → Prop) (l : List ℕ) (s : Finset ℕ)
    (h : ∀ i ∈ l, P i → i ∈ s) : l.foldl (hitStep P) s = s := by
  induction l generalizing s with
  | nil => rfl
  | cons i t ih =>
      have h1 : hitStep P s i = s := by
        unfold hitStep
        split
        · exact Finset.insert_eq_self.2 (h i (List.mem_cons_self i t) (by assumption))
        · rfl
      simp only [List.foldl_cons, h1]
      exact ih _ (fun j hj => h j (List.mem_cons_of_mem i hj))

theorem mem_foldl_hitStep (P : ℕ → Prop) (l : List ℕ) (s : Finset ℕ)
    (i : ℕ) (hi : i ∈ l) (hP : P i) : i ∈ l.foldl (hitStep P) s := by
  induction l generalizing s with
  | nil => cases hi
  | cons j t ih =>
      rcases List.mem_cons.1 hi with h | h
      · subst h
        have h1 : i ∈ hitStep P s i := by
          unfold hitStep
          rw [if_pos hP]
          exact Finset.mem_insert_self _ _
        exact subset_foldl_hitStep P t _ h1
      · exact ih _ h

theorem foldl_hitStep_single (P : ℕ → Prop) (k : ℕ) (l : List ℕ) (s : Finset ℕ)
    (hk : k ∈ l) (hP : ∀ i ∈ l, P i ↔ i = k) :
    l.foldl (hitStep P) s = insert k s := by
  induction l generalizing s with
  | nil => cases hk
  | cons i t ih =>
      simp only [List.foldl_cons]
      by_cases hik : i = k
      · subst hik
        have h1 : hitStep P s i = insert i s := by
          unfold hitStep
          rw [if_pos ((hP i (List.mem_cons_self i t)).2 rfl)]
        rw [h1]
        by_cases hkt : i ∈ t
        · rw [ih (insert i s) hkt (fun j hj => hP j (List.mem_cons_of_mem i hj))]
          exact Finset.insert_idem i s
        · exact foldl_hitStep_of_not P t _ fun j hj hPj =>
            hkt (((hP j (List.mem_cons_of_mem i hj)).1 hPj) ▸ hj)
      · have h1 : hitStep P s i = s :=
          if_neg fun hPi => hik ((hP i (List.mem_cons_self i t)).1 hPi)
        rw [h1]
        have hkt : k ∈ t := by
          rcases List.mem_cons.1 hk with h | h
          · exact absurd h.symm hik
          · exact h
        exact ih s hkt (fun j hj => hP j (List.mem_cons_of_mem i hj))

theorem foldl_pairHit_subset (Q : Pt → Prop) (l : List (ℕ × Pt)) (s T : Finset ℕ)
    (hT : ∀ p ∈ l, p.1 ∈ T) :
    l.foldl (fun acc p => if Q p.2 then insert p.1 acc else acc) s ⊆ s ∪ T := by
  induction l generalizing s with
  | nil => simp
  | cons q t ih =>
      simp only [List.foldl_cons]
      refine (ih _ (fun p hp => hT p (List.mem_cons_of_mem q hp))).trans ?_
      intro x hx
      rcases Finset.mem_union.1 hx with h | h
      · have hq : (if Q q.2 then insert q.1 s else s) ⊆ insert q.1 s := by
          split
          · exact Finset.Subset.refl _
          · exact Finset.subset_insert _ _
        rcases Finset.mem_insert.1 (hq h) with h1 | h1
        · exact Finset.mem_union.2 (Or.inr (h1 ▸ hT q (List.mem_cons_self q t)))
        · exact Finset.mem_union.2 (Or.inl h1)
      · exact Finset.mem_union.2 (Or.inr h)

theorem foldl_pairHit_of_not (Q : Pt → Prop) (l : List (ℕ × Pt)) (s : Finset ℕ)
    (h : ∀ p ∈ l, ¬ Q p.2) :
    l.foldl (fun acc p => if Q p.2 then insert p.1 acc else acc) s = s := by
  induction l generalizing s with
  | nil => rfl
  | cons q t ih =>
      have h1 : (if Q q.2 then insert q.1 s else s) = s :=
        if_neg (h q (List.mem_cons_self q t))
      simp only [List.foldl_cons, h1]
      exact ih _ (fun p hp => h p (List.mem_cons_of_mem q hp))

/-! ## Geometry of the circle checkpoints -/

theorem cpAngle_eq (i : ℕ) : cpAngle i = (i : ℝ) * (Real.pi / 8) := by
  unfold cpAngle CHECKPOINTS
  push_cast
  ring

theorem cos_pi_div_eight_le : Real.cos (Real.pi / 8) ≤ 0.93 := by
  have hl : 3.14 < Real.pi := Real.pi_gt_d2
  have hu : Real.pi < 3.15 := Real.pi_lt_d2
  have hx : |Real.pi / 8| ≤ 1 := by
    rw [abs_of_nonneg (by positivity)]
    linarith
  have hb := Real.cos_bound hx
  rw [abs_of_nonneg (by positivity : (0 : ℝ) ≤ Real.pi / 8)] at hb
  have h1 : (0.154 : ℝ) ≤ (Real.pi / 8) ^ 2 := by nlinarith
  have hq2 : (Real.pi / 8) ^ 2 ≤ 0.156 := by nlinarith
  have h2 : (Real.pi / 8) ^ 4 ≤ 0.025 := by
    have h3 : (Real.pi / 8) ^ 4 = ((Real.pi / 8) ^ 2) ^ 2 := by ring
    rw [h3]
    nlinarith [sq_nonneg (Real.pi / 8)]
  have h4 := (abs_le.1 hb).2
  nlinarith [h4]

theorem cos_mul_pi_div_eight_le_aux (n : ℕ) (h1 : 1 ≤ n) (h2 : n ≤ 8) :
    Real.cos ((n : ℝ) * (Real.pi / 8)) ≤ 0.93 := by
  have hπ := Real.pi_pos
  have hn1 : (1 : ℝ) ≤ (n : ℝ) := by exact_mod_cast h1
  have hn8 : (n : ℝ) ≤ 8 := by exact_mod_cast h2
  have hc := Real.cos_le_cos_of_nonneg_of_le_pi
    (by positivity : (0 : ℝ) ≤ Real.pi / 8)
    (by nlinarith : (n : ℝ) * (Real.pi / 8) ≤ Real.pi)
    (by nlinarith : Real.pi / 8 ≤ (n : ℝ) * (Real.pi / 8))
  exact hc.trans cos_pi_div_eight_le

theorem cos_mul_pi_div_eight_le (n : ℕ) (h1 : 1 ≤ n) (h2 : n ≤ 15) :
    Real.cos ((n : ℝ) * (Real.pi / 8)) ≤ 0.93 := by
  rcases le_or_lt n 8 with h8 | h8
  · exact cos_mul_pi_div_eight_le_aux n h1 h8
  · have hle : n ≤ 16 := by omega
    have hcast : ((16 - n : ℕ) : ℝ) = 16 - (n : ℝ) := by
      push_cast [hle]
      ring
    have heq : (n : ℝ) * (Real.pi / 8) =
        2 * Real.pi - ((16 - n : ℕ) : ℝ) * (Real.pi / 8) := by
      rw [hcast]
      ring
    rw [heq, Real.cos_two_pi_sub]
    exact cos_mul_pi_div_eight_le_aux (16 - n) (by omega) (by omega)

theorem cos_cpAngle_sub_le (i k : ℕ) (hi : i < 16) (hk : k < 16) (hik : i ≠ k) :
    Real.cos (cpAngle i - cpAngle k) ≤ 0.93 := by
  rw [cpAngle_eq, cpAngle_eq]
  rcases lt_or_gt_of_ne hik with h | h
  · have heq : (i : ℝ) * (Real.pi / 8) - (k : ℝ) * (Real.pi / 8) =
        -(((k - i : ℕ) : ℝ) * (Real.pi / 8)) := by
      push_cast [le_of_lt h]
      ring
    rw [heq, Real.cos_neg]
    exact cos_mul_pi_div_eight_le (k - i) (by omega) (by omega)
  · have heq : (i : ℝ) * (Real.pi / 8) - (k : ℝ) * (Real.pi / 8) =
        ((i - k : ℕ) : ℝ) * (Real.pi / 8) := by
      push_cast [le_of_lt h]
      ring
    rw [heq]
    exact cos_mul_pi_div_eight_le (i - k) (by omega) (by omega)

/-- Distinct checkpoints of a radius-300 circle are at least 25 px apart,
so a fingertip exactly at checkpoint k does not hit checkpoint i. -/
theorem cp_far (cX cY : ℝ) (i k : ℕ) (hi : i < 16) (hk : k < 16) (hik : i ≠ k) :
    ¬ circleHitTest cX cY 300 (checkpointX cX 300 k) (checkpointY cY 300 k) i := by
  intro hlt
  unfold circleHitTest TOLERANCE at hlt
  have hkey := cos_cpAngle_sub_le i k hi hk hik
  have h1 := Real.sin_sq_add_cos_sq (cpAngle i)
  have h2 := Real.sin_sq_add_cos_sq (cpAngle k)
  have hid : (checkpointX cX 300 i - checkpointX cX 300 k) *
        (checkpointX cX 300 i - checkpointX cX 300 k) +
      (checkpointY cY 300 i - checkpointY cY 300 k) *
        (checkpointY cY 300 i - checkpointY cY 300 k) =
      180000 * (1 - Real.cos (cpAngle i - cpAngle k)) := by
    unfold checkpointX checkpointY
    rw [Real.cos_sub]
    linear_combination (90000 : ℝ) * h1 + (90000 : ℝ) * h2
  have hge : (25 : ℝ) ≤ hypot (checkpointX cX 300 i - checkpointX cX 300 k)
      (checkpointY cY 300 i - checkpointY cY 300 k) := by
    apply le_hypot_of_sq_le
    rw [hid]
    nlinarith [hkey]
  linarith [hge, hlt]

theorem cp_self_hit (cX cY radius : ℝ) (k : ℕ) :
    circleHitTest cX cY radius (checkpointX cX radius k) (checkpointY cY radius k) k := by
  unfold circleHitTest
  rw [sub_self, sub_self, hypot_zero]
  unfold TOLERANCE
  norm_num

/-- With the fingertip exactly at checkpoint k, the checkCircleHit pass
adds exactly index k to the hit set. -/
theorem checkCircleHit_at_cp (cX cY : ℝ) (k : ℕ) (hk : k < 16) (s : Finset ℕ) :
    checkCircleHit cX cY 300 (checkpointX cX 300 k) (checkpointY cY 300 k) s =
      insert k s := by
  unfold checkCircleHit
  apply foldl_hitStep_single _ k _ s
  · rw [List.mem_range]
    unfold CHECKPOINTS
    omega
  · intro i hi
    rw [List.mem_range] at hi
    unfold CHECKPOINTS at hi
    constructor
    · intro hP
      by_contra hne
      exact cp_far cX cY i k hi hk hne hP
    · rintro rfl
      exact cp_self_hit cX cY 300 _

/-- The checkpoint generated at index i lies at distance radius from the
circle center. -/
theorem cp_dist_center (cX cY radius : ℝ) (hr : 0 ≤ radius) (i : ℕ) :
    hypot (checkpointX cX radius i - cX) (checkpointY cY radius i - cY) = radius := by
  unfold checkpointX checkpointY
  have hx : cX + radius * Real.cos (cpAngle i) - cX = radius * Real.cos (cpAngle i) := by
    ring
  have hy : cY + radius * Real.sin (cpAngle i) - cY = radius * Real.sin (cpAngle i) := by
    ring
  rw [hx, hy, hypot_cos_sin radius (cpAngle i) hr]

/-- A fingertip within TOLERANCE of any circle checkpoint satisfies the
circle branch of isOnShape. -/
theorem circle_hit_imp_onShape (cX cY radius size tipX tipY : ℝ) (hr : 0 ≤ radius)
    (i : ℕ) (h : circleHitTest cX cY radius tipX tipY i) :
    isOnShape .circle cX cY radius size tipX tipY := by
  unfold circleHitTest TOLERANCE at h
  show |hypot (tipX - cX) (tipY - cY) - radius| < TOLERANCE
  have hcp := cp_dist_center cX cY radius hr i
  have htri := abs_hypot_sub_hypot_le (tipX - cX) (tipY - cY)
    (checkpointX cX radius i - cX) (checkpointY cY radius i - cY)
  rw [hcp] at htri
  have hrw : hypot (tipX - cX - (checkpointX cX radius i - cX))
      (tipY - cY - (checkpointY cY radius i - cY)) =
      hypot (checkpointX cX radius i - tipX) (checkpointY cY radius i - tipY) := by
    have e1 : tipX - cX - (checkpointX cX radius i - cX) =
        -(checkpointX cX radius i - tipX) := by ring
    have e2 : tipY - cY - (checkpointY cY radius i - cY) =
        -(checkpointY cY radius i - tipY) := by ring
    rw [e1, e2, hypot_neg]
  rw [hrw] at htri
  unfold TOLERANCE
  linarith

/-- A fingertip within TOLERANCE of a point on the square outline (with
coordinates in the bounding box and on one of the four edge lines)
satisfies the square branch of isOnShape. -/
theorem square_onShape_of_pt (cX cY radius size tipX tipY px py : ℝ)
    (hx1 : cX - size / 2 ≤ px) (hx2 : px ≤ cX + size / 2)
    (hy1 : cY - size / 2 ≤ py) (hy2 : py ≤ cY + size / 2)
    (hedge : px = cX - size / 2 ∨ px = cX + size / 2 ∨
      py = cY - size / 2 ∨ py = cY + size / 2)
    (hdx : |px - tipX| < 25) (hdy : |py - tipY| < 25) :
    isOnShape .square cX cY radius size tipX tipY := by
  rw [abs_sub_lt_iff] at hdx hdy
  show (_ ∧ _ ∧ _ ∧ _) ∧ (_ ∨ _ ∨ _ ∨ _)
  constructor
  · refine ⟨?_, ?_, ?_, ?_⟩
    · show tipX ≥ cX - size / 2 - TOLERANCE
      unfold TOLERANCE
      linarith [hdx.1]
    · show tipX ≤ cX + size / 2 + TOLERANCE
      unfold TOLERANCE
      linarith [hdx.2]
    · show tipY ≥ cY - size / 2 - TOLERANCE
      unfold TOLERANCE
      linarith [hdy.1]
    · show tipY ≤ cY + size / 2 + TOLERANCE
      unfold TOLERANCE
      linarith [hdy.2]
  · rcases hedge with he | he | he | he
    · refine Or.inl ?_
      show |tipX - (cX - size / 2)| < TOLERANCE
      unfold TOLERANCE
      rw [abs_sub_lt_iff]
      constructor <;> [linarith [hdx.2]; linarith [hdx.1]]
    · refine Or.inr (Or.inl ?_)
      show |tipX - (cX + size / 2)| < TOLERANCE
      unfold TOLERANCE
      rw [abs_sub_lt_iff]
      constructor <;> [linarith [hdx.2]; linarith [hdx.1]]
    · refine Or.inr (Or.inr (Or.inl ?_))
      show |tipY - (cY - size / 2)| < TOLERANCE
      unfold TOLERANCE
      rw [abs_sub_lt_iff]
      constructor <;> [linarith [hdy.2]; linarith [hdy.1]]
    · refine Or.inr (Or.inr (Or.inr ?_))
      show |tipY - (cY + size / 2)| < TOLERANCE
      unfold TOLERANCE
      rw [abs_sub_lt_iff]
      constructor <;> [linarith [hdy.2]; linarith [hdy.1]]

/-- A fingertip within TOLERANCE of any generated square checkpoint
satisfies the square branch of isOnShape. -/
theorem square_hit_imp_onShape (cX cY radius size tipX tipY : ℝ) (hsz : 0 ≤ size)
    (p : Pt) (hp : p ∈ squareSides cX cY size) (h : squareHitTest tipX tipY p) :
    isOnShape .square cX cY radius size tipX tipY := by
  unfold squareHitTest TOLERANCE at h
  have hdx : |p.x - tipX| < 25 := lt_of_le_of_lt (abs_le_hypot_left _ _) h
  have hdy : |p.y - tipY| < 25 := lt_of_le_of_lt (abs_le_hypot_right _ _) h
  have h16 : ((CHECKPOINTS : ℕ) : ℝ) = 16 := by norm_num [CHECKPOINTS]
  simp only [squareSides, h16, List.mem_cons, List.not_mem_nil, or_false] at hp
  rcases hp with hp | hp | hp | hp | hp | hp | hp | hp | hp | hp | hp | hp <;>
    subst hp <;>
    refine square_onShape_of_pt cX cY radius size tipX tipY _ _
      (by dsimp only; linarith) (by dsimp only; linarith)
      (by dsimp only; linarith) (by dsimp only; linarith)
      (by dsimp only; norm_num) hdx hdy

/-! ## Step and run lemmas for ShapeTracing -/

theorem squareSides_enum_fst (cX cY size : ℝ) (p : ℕ × Pt)
    (hp : p ∈ (squareSides cX cY size).enum) : p.1 ∈ Finset.range 12 := by
  have h := List.mem_enum_iff_getElem?.1 hp
  have hlt : p.1 < (squareSides cX cY size).length := by
    rcases List.getElem?_eq_some.1 h with ⟨h1, _⟩
    exact h1
  have hlen : (squareSides cX cY size).length = 12 := by simp [squareSides]
  rw [Finset.mem_range]
  omega

theorem checkSquareHit_subset (cX cY size tipX tipY : ℝ) (s : Finset ℕ) :
    checkSquareHit cX cY size tipX tipY s ⊆ s ∪ Finset.range 12 := by
  unfold checkSquareHit
  exact foldl_pairHit_subset _ _ s (Finset.range 12)
    (fun p hp => squareSides_enum_fst cX cY size p hp)

theorem squareSides_sides (cX cY size : ℝ) :
    (squareSides cX cY size).length = 12 ∧
    ∀ p ∈ squareSides cX cY size,
      p.x = cX - size / 2 ∨ p.y = cY - size / 2 ∨ p.x = cX + size / 2 := by
  constructor
  · simp [squareSides]
  · intro p hp
    simp only [squareSides, List.mem_cons, List.not_mem_nil, or_false] at hp
    rcases hp with hp|hp|hp|hp|hp|hp|hp|hp|hp|hp|hp|hp <;> subst hp <;> simp

theorem detectStep_square (st : STState) (f : STFrame)
    (hsh : st.shapeType = some ShapeType.square)
    (hsub : st.checkpointsHit ⊆ Finset.range 12) :
    (detectStep st f).1.shapeType = some ShapeType.square ∧
    (detectStep st f).1.checkpointsHit ⊆ Finset.range 12 ∧
    (detectStep st f).2 = 0 := by
  have hcard : ∀ s1 : Finset ℕ, s1 ⊆ Finset.range 12 → ¬ scoreThreshold ≤ s1.card := by
    intro s1 h1
    rw [scoreThreshold_eq]
    have h2 := Finset.card_le_card h1
    rw [Finset.card_range] at h2
    omega
  cases htip : f.tip with
  | none =>
      simp only [detectStep, hsh, htip]
      rw [if_neg (hcard _ hsub)]
      exact ⟨rfl, hsub, rfl⟩
  | some tip =>
      have hsub1 : checkSquareHit (f.width / 2) (f.height / 2)
          (min f.width f.height * 0.6) (tip.x * f.width) (tip.y * f.height)
          st.checkpointsHit ⊆ Finset.range 12 := by
        refine (checkSquareHit_subset _ _ _ _ _ _).trans ?_
        exact Finset.union_subset hsub (Finset.Subset.refl _)
      simp only [detectStep, hsh, htip]
      rw [if_neg (hcard _ hsub1)]
      exact ⟨rfl, hsub1, rfl⟩

theorem detectRun_acc (fs : List STFrame) (st : STState) (a : List ℕ) :
    fs.foldl (fun p f =>
      let r := detectStep p.1 f
      (r.1, p.2 ++ [r.2])) (st, a) =
      ((detectRun st fs).1, a ++ (detectRun st fs).2) := by
  induction fs generalizing st a with
  | nil => simp [detectRun]
  | cons f t ih =>
      simp only [detectRun, List.foldl_cons]
      rw [ih, ih]
      simp

theorem detectRun_cons (st : STState) (f : STFrame) (fs : List STFrame) :
    detectRun st (f :: fs) =
      ((detectRun (detectStep st f).1 fs).1,
        (detectStep st f).2 :: (detectRun (detectStep st f).1 fs).2) := by
  unfold detectRun
  simp only [List.foldl_cons]
  rw [detectRun_acc]
  simp only [List.nil_append, List.singleton_append]
  exact Prod.ext rfl rfl

theorem detectRun_concat (st : STState) (fs : List STFrame) (f : STFrame) :
    detectRun st (fs ++ [f]) =
      ((detectStep (detectRun st fs).1 f).1,
        (detectRun st fs).2 ++ [(detectStep (detectRun st fs).1 f).2]) := by
  unfold detectRun
  rw [List.foldl_append]
  simp only [List.foldl_cons, List.foldl_nil]

theorem detectRun_square (fs : List STFrame) (st : STState)
    (hsh : st.shapeType = some ShapeType.square)
    (hsub : st.checkpointsHit ⊆ Finset.range 12) :
    (detectRun st fs).1.shapeType = some ShapeType.square ∧
    (detectRun st fs).1.checkpointsHit ⊆ Finset.range 12 ∧
    ∀ d ∈ (detectRun st fs).2, d = 0 := by
  induction fs generalizing st with
  | nil => exact ⟨hsh, hsub, by simp [detectRun]⟩
  | cons f t ih =>
      obtain ⟨h1, h2, h3⟩ := detectStep_square st f hsh hsub
      obtain ⟨g1, g2, g3⟩ := ih (detectStep st f).1 h1 h2
      rw [detectRun_cons]
      refine ⟨g1, g2, ?_⟩
      intro d hd
      rcases List.mem_cons.1 hd with h | h
      · rw [h]
        exact h3
      · exact g3 d h

/-! ## The circle sweep run -/

theorem detectStep_fresh (s : Finset ℕ) (tr : List (Pt × ℕ)) (b : Bool) (f : STFrame) :
    detectStep ⟨none, s, tr, b⟩ f = detectStep ⟨some f.randShape, ∅, [], false⟩ f := rfl

theorem detectStep_sweep_some (k : ℕ) (st : STState)
    (hsh : st.shapeType = some ShapeType.circle) (hk : k < 16)
    (hcard : (insert k st.checkpointsHit).card < 14) :
    detectStep st (sweepFrame k) =
      (⟨some ShapeType.circle, insert k st.checkpointsHit,
        st.trailPoints ++
          [((⟨checkpointX 500 300 k, checkpointY 500 300 k⟩ : Pt), k)], true⟩, 0) := by
  have hne : (1000 : ℝ) ≠ 0 := by norm_num
  have htx : checkpointX 500 300 k / 1000 * 1000 = checkpointX 500 300 k :=
    div_mul_cancel₀ _ hne
  have hty : checkpointY 500 300 k / 1000 * 1000 = checkpointY 500 300 k :=
    div_mul_cancel₀ _ hne
  have hdist : hypot (checkpointX 500 300 k - 500) (checkpointY 500 300 k - 500) = 300 :=
    cp_dist_center 500 500 300 (by norm_num) k
  have honshape : isOnShape ShapeType.circle 500 500 300 600
      (checkpointX 500 300 k) (checkpointY 500 300 k) := by
    show |hypot (checkpointX 500 300 k - 500) (checkpointY 500 300 k - 500) - 300| < TOLERANCE
    rw [hdist]
    unfold TOLERANCE
    norm_num
  have hhit := checkCircleHit_at_cp 500 500 k hk st.checkpointsHit
  simp only [detectStep, sweepFrame, sweepTip, hsh]
  norm_num [min_self]
  rw [hhit, scoreThreshold_eq]
  rw [if_neg (by omega : ¬ (14 : ℕ) ≤ (insert k st.checkpointsHit).card)]
  simp [honshape]

theorem detectStep_sweep_trigger (k : ℕ) (st : STState)
    (hsh : st.shapeType = some ShapeType.circle) (hk : k < 16)
    (hcard : 14 ≤ (insert k st.checkpointsHit).card) :
    detectStep st (sweepFrame k) = (⟨none, ∅, [], false⟩, 1) := by
  have hne : (1000 : ℝ) ≠ 0 := by norm_num
  have htx : checkpointX 500 300 k / 1000 * 1000 = checkpointX 500 300 k :=
    div_mul_cancel₀ _ hne
  have hty : checkpointY 500 300 k / 1000 * 1000 = checkpointY 500 300 k :=
    div_mul_cancel₀ _ hne
  have hhit := checkCircleHit_at_cp 500 500 k hk st.checkpointsHit
  simp only [detectStep, sweepFrame, sweepTip, hsh]
  norm_num [min_self]
  rw [hhit, scoreThreshold_eq]
  exact hcard

theorem sweepRun (k : ℕ) (h1 : 1 ≤ k) (h13 : k ≤ 13) :
    detectRun initialState ((List.range k).map sweepFrame) =
      (⟨some ShapeType.circle, Finset.range k, sweepTrail k, true⟩,
        List.replicate k 0) := by
  induction k with
  | zero => omega
  | succ n ih =>
      by_cases hn : n = 0
      · subst hn
        have hframes : (List.range 1).map sweepFrame = [sweepFrame 0] := rfl
        have hfresh : detectStep initialState (sweepFrame 0) =
            detectStep ⟨some ShapeType.circle, ∅, [], false⟩ (sweepFrame 0) := rfl
        have hstep := detectStep_sweep_some 0 ⟨some ShapeType.circle, ∅, [], false⟩ rfl
          (by omega) (by simp)
        rw [hframes, detectRun_cons, hfresh, hstep]
        dsimp only
        simp [detectRun, sweepTrail, Finset.range_one,
          show List.range 1 = [0] from rfl]
      · have hn1 : 1 ≤ n := by omega
        have ihh := ih hn1 (by omega)
        rw [List.range_succ, List.map_append]
        simp only [List.map_cons, List.map_nil]
        rw [detectRun_concat, ihh]
        have hstep := detectStep_sweep_some n
          ⟨some ShapeType.circle, Finset.range n, sweepTrail n, true⟩ rfl (by omega)
          (by
            rw [show insert n (Finset.range n) = Finset.range (n + 1) from
              (Finset.range_succ).symm, Finset.card_range]
            omega)
        dsimp only at hstep
        rw [hstep]
        dsimp only
        have htrail : sweepTrail n ++
            [((⟨checkpointX 500 300 n, checkpointY 500 300 n⟩ : Pt), n)] =
            sweepTrail (n + 1) := by
          unfold sweepTrail
          rw [List.range_succ, List.map_append]
          simp
        have hrange : insert n (Finset.range n) = Finset.range (n + 1) :=
          (Finset.range_succ).symm
        rw [htrail, hrange]
        rw [show List.replicate n (0 : ℕ) ++ [0] = List.replicate (n + 1) 0 from
          (List.replicate_succ' n 0).symm]

/-! ## Claims C1, C2, C6, C10 -/

/-- C1: while the active shape is a square, every index the square hit
test can add lies in 0..11 (the 12 generated checkpoints sit on the left,
top and right sides only), so the hit set stays inside range 12, its size
never reaches the completion threshold, and over any sequence of frames
no score increment is emitted and the shape is never reset. -/
theorem c1_square_round_never_scores (st : STState) (fs : List STFrame)
    (hsh : st.shapeType = some ShapeType.square)
    (hsub : st.checkpointsHit ⊆ Finset.range 12) :
    (∀ cX cY size : ℝ, (squareSides cX cY size).length = 12 ∧
      ∀ p ∈ squareSides cX cY size,
        p.x = cX - size / 2 ∨ p.y = cY - size / 2 ∨ p.x = cX + size / 2) ∧
    (detectRun st fs).1.shapeType = some ShapeType.square ∧
    (detectRun st fs).1.checkpointsHit ⊆ Finset.range 12 ∧
    ∀ d ∈ (detectRun st fs).2, d = 0 :=
  ⟨fun cX cY size => squareSides_sides cX cY size, detectRun_square fs st hsh hsub⟩

/-- Witness for C1 at a concrete square round and one concrete frame. -/
theorem c1_square_round_never_scores_witness :
    (detectRun ⟨some ShapeType.square, ∅, [], false⟩
        [⟨1000, 1000, 0, some ⟨0.5, 0.5⟩, ShapeType.circle⟩]).1.shapeType =
      some ShapeType.square ∧
    ∀ d ∈ (detectRun ⟨some ShapeType.square, ∅, [], false⟩
        [⟨1000, 1000, 0, some ⟨0.5, 0.5⟩, ShapeType.circle⟩]).2, d = 0 :=
  ⟨(c1_square_round_never_scores ⟨some ShapeType.square, ∅, [], false⟩
      [⟨1000, 1000, 0, some ⟨0.5, 0.5⟩, ShapeType.circle⟩] rfl
      (Finset.empty_subset _)).2.1,
   (c1_square_round_never_scores ⟨some ShapeType.square, ∅, [], false⟩
      [⟨1000, 1000, 0, some ⟨0.5, 0.5⟩, ShapeType.circle⟩] rfl
      (Finset.empty_subset _)).2.2.2⟩

/-- C2 (code behaviour at the failing input): sweeping the fingertip
through circle checkpoints 0..13 on a fresh circle round emits no score
during the first 13 frames, after which exactly 13 distinct checkpoints
are hit; the 14th frame makes the hit set range 14 (14 distinct
checkpoints) and the step emits scoreDelta 1 right there, because the
threshold in the code is Math.floor(16 * 0.9) = 14, not ceil = 15 as the
specification claims. -/
theorem c2_circle_emits_on_fourteenth_checkpoint :
    (detectRun initialState ((List.range 13).map sweepFrame)).2 =
      List.replicate 13 0 ∧
    (detectRun initialState ((List.range 13).map sweepFrame)).1.checkpointsHit =
      Finset.range 13 ∧
    checkCircleHit 500 500 300 (checkpointX 500 300 13) (checkpointY 500 300 13)
      (Finset.range 13) = Finset.range 14 ∧
    (detectStep (detectRun initialState ((List.range 13).map sweepFrame)).1
      (sweepFrame 13)).2 = 1 ∧
    scoreThreshold = 14 := by
  have hrun := sweepRun 13 (by omega) (by omega)
  have hins : insert 13 (Finset.range 13) = Finset.range 14 := (Finset.range_succ).symm
  have hhit := checkCircleHit_at_cp 500 500 13 (by omega) (Finset.range 13)
  refine ⟨by rw [hrun], by rw [hrun], by rw [hhit, hins], ?_, scoreThreshold_eq⟩
  rw [hrun]
  have htr := detectStep_sweep_trigger 13
    ⟨some ShapeType.circle, Finset.range 13, sweepTrail 13, true⟩ rfl (by omega)
    (by
      show (14 : ℕ) ≤ (insert 13 (Finset.range 13)).card
      rw [hins, Finset.card_range])
  rw [htr]

/-- C6: in a round with an active shape, while tracing has not started
and the fingertip does not satisfy the on-shape-outline test, the frame
adds no checkpoint to the hit set, tracing stays unstarted, and no score
is emitted, whatever the fingertip position is. -/
theorem c6_touches_ignored_before_tracing (st : STState) (f : STFrame)
    (sh : ShapeType) (hsh : st.shapeType = some sh)
    (hstart : st.drawingStarted = false)
    (hcard : st.checkpointsHit.card < scoreThreshold)
    (hw : 0 ≤ f.width) (hh : 0 ≤ f.height)
    (htip : ∀ p : Pt, f.tip = some p →
      ¬ isOnShape sh (f.width / 2) (f.height / 2) (min f.width f.height * 0.3)
        (min f.width f.height * 0.6) (p.x * f.width) (p.y * f.height)) :
    (detectStep st f).1.checkpointsHit = st.checkpointsHit ∧
    (detectStep st f).1.drawingStarted = false ∧
    (detectStep st f).2 = 0 := by
  have hlt : ¬ scoreThreshold ≤ st.checkpointsHit.card := by omega
  cases htp : f.tip with
  | none =>
      simp only [detectStep, hsh, htp]
      rw [if_neg hlt]
      exact ⟨rfl, hstart, rfl⟩
  | some p =>
      have hno := htip p htp
      have hmin : (0 : ℝ) ≤ min f.width f.height := le_min hw hh
      cases sh with
      | circle =>
          have hch : checkCircleHit (f.width / 2) (f.height / 2)
              (min f.width f.height * 0.3) (p.x * f.width) (p.y * f.height)
              st.checkpointsHit = st.checkpointsHit := by
            apply foldl_hitStep_of_not
            intro i _ hi
            exact hno (circle_hit_imp_onShape _ _ _ _ _ _
              (mul_nonneg hmin (by norm_num)) i hi)
          simp only [detectStep, hsh, htp]
          rw [hch, if_neg hlt]
          refine ⟨rfl, ?_, rfl⟩
          simp [hstart, hno]
      | square =>
          have hch : checkSquareHit (f.width / 2) (f.height / 2)
              (min f.width f.height * 0.6) (p.x * f.width) (p.y * f.height)
              st.checkpointsHit = st.checkpointsHit := by
            apply foldl_pairHit_of_not
            intro q hq hQ
            refine hno (square_hit_imp_onShape _ _ (min f.width f.height * 0.3) _ _ _
              (mul_nonneg hmin (by norm_num)) q.2 ?_ hQ)
            have hmem := List.mem_enum_iff_getElem?.1 hq
            rcases List.getElem?_eq_some.1 hmem with ⟨hlt2, hget⟩
            rw [← hget]
            exact List.getElem_mem _
          simp only [detectStep, hsh, htp]
          rw [hch, if_neg hlt]
          refine ⟨rfl, ?_, rfl⟩
          simp [hstart, hno]

/-- Witness for C6: square round, fingertip at the canvas corner, far off
the outline. -/
theorem c6_touches_ignored_before_tracing_witness :
    (detectStep ⟨some ShapeType.square, ∅, [], false⟩
        ⟨1000, 1000, 0, some ⟨0, 0⟩, ShapeType.circle⟩).1.checkpointsHit = ∅ ∧
    (detectStep ⟨some ShapeType.square, ∅, [], false⟩
        ⟨1000, 1000, 0, some ⟨0, 0⟩, ShapeType.circle⟩).2 = 0 := by
  have h := c6_touches_ignored_before_tracing
    ⟨some ShapeType.square, ∅, [], false⟩ ⟨1000, 1000, 0, some ⟨0, 0⟩, ShapeType.circle⟩
    ShapeType.square rfl rfl
    (by rw [scoreThreshold_eq]; simp)
    (by norm_num) (by norm_num)
    (by
      intro p hp
      cases hp
      dsimp only
      norm_num [isOnShape, TOLERANCE, min_self])
  exact ⟨h.1, h.2.2⟩

/-- C10: the per-checkpoint recording step is idempotent: re-testing a
fingertip within tolerance of a checkpoint whose index is already in the
hit set leaves the set, hence its size, unchanged; moreover re-running a
whole checkCircleHit pass at the same fingertip changes nothing. -/
theorem c10_checkpoint_recording_idempotent (cX cY radius tipX tipY : ℝ)
    (s : Finset ℕ) (i : ℕ) (hmem : i ∈ s)
    (htol : circleHitTest cX cY radius tipX tipY i) :
    hitStep (circleHitTest cX cY radius tipX tipY) s i = s ∧
    (hitStep (circleHitTest cX cY radius tipX tipY) s i).card = s.card ∧
    checkCircleHit cX cY radius tipX tipY (checkCircleHit cX cY radius tipX tipY s) =
      checkCircleHit cX cY radius tipX tipY s := by
  have h1 : hitStep (circleHitTest cX cY radius tipX tipY) s i = s := by
    unfold hitStep
    rw [if_pos htol]
    exact Finset.insert_eq_self.2 hmem
  refine ⟨h1, by rw [h1], ?_⟩
  unfold checkCircleHit
  apply foldl_hitStep_of_mem
  intro j hj hPj
  exact mem_foldl_hitStep _ _ _ j hj hPj

/-- Witness for C10: checkpoint 0 of the standard circle is already hit
and the fingertip sits exactly on it. -/
theorem c10_checkpoint_recording_idempotent_witness :
    (hitStep (circleHitTest 500 500 300 (checkpointX 500 300 0) (checkpointY 500 300 0))
      {0} 0).card = ({0} : Finset ℕ).card :=
  (c10_checkpoint_recording_idempotent 500 500 300
    (checkpointX 500 300 0) (checkpointY 500 300 0) {0} 0 (by decide)
    (cp_self_hit 500 500 300 0)).2.1

end ShapeTracing

/-! ## Gesture classifier exclusivity (C7) -/

/-- In the SimonSays classifier, no point can be both above the up
threshold and below the down threshold, since the spread is a
non-negative multiple of the absolute palm drive distance. -/
theorem ss_up_down_absurd (a b y : ℚ) (hb : 0 ≤ b)
    (hup : y < a - b * 0.5) (hdown : a + b * 0.3 < y) : False := by
  linarith

/-- In the MemoryMatch classifier, a fingertip cannot be both above and
below the fixed 0.05 band around the palm-base y. -/
theorem mm_up_down_absurd (c y : ℚ) (hup : y < c - 0.05) (hdown : c + 0.05 < y) :
    False := by linarith

/-- C7 amended: the five SimonSays rules are pairwise mutually exclusive;
in the MemoryMatch classifier every pair of rules except ThumbsUp/Fist is
mutually exclusive (ThumbsUp and Fist can hold simultaneously, see the
counterexample). -/
theorem c7_rules_mutually_exclusive_except_mm_thumbs_fist :
    (∀ (lm : Landmarks) (g₁ g₂ : Gesture), g₁ ≠ g₂ →
      ¬(SimonSays.checkGesture lm g₁ = true ∧ SimonSays.checkGesture lm g₂ = true)) ∧
    (∀ (lm : Landmarks) (g₁ g₂ : Gesture),
      MemoryMatch.checkGesture lm g₁ = true → MemoryMatch.checkGesture lm g₂ = true →
      g₁ = g₂ ∨ (g₁ = Gesture.thumbsUp ∧ g₂ = Gesture.fist) ∨
        (g₁ = Gesture.fist ∧ g₂ = Gesture.thumbsUp)) := by
  constructor
  · intro lm g₁ g₂ hne hcon
    obtain ⟨h1, h2⟩ := hcon
    cases g₁ <;> cases g₂
    case openHand.openHand => exact hne rfl
    case openHand.two =>
      simp only [SimonSays.checkGesture, Bool.and_eq_true, decide_eq_true_eq,
        gt_iff_lt, and_assoc] at h1 h2
      exact ss_up_down_absurd _ _ _ (abs_nonneg _) h1.2.2.1 h2.2.2.1
    case openHand.rock =>
      simp only [SimonSays.checkGesture, Bool.and_eq_true, decide_eq_true_eq,
        gt_iff_lt, and_assoc] at h1 h2
      exact ss_up_down_absurd _ _ _ (abs_nonneg _) h1.2.1 h2.2.1
    case openHand.thumbsUp =>
      simp only [SimonSays.checkGesture, Bool.and_eq_true, decide_eq_true_eq,
        gt_iff_lt, and_assoc] at h1 h2
      exact ss_up_down_absurd _ _ _ (abs_nonneg _) h1.1 h2.2.1
    case openHand.fist =>
      simp only [SimonSays.checkGesture, Bool.and_eq_true, decide_eq_true_eq,
        gt_iff_lt, and_assoc] at h1 h2
      exact ss_up_down_absurd _ _ _ (abs_nonneg _) h1.1 h2.1
    case two.openHand =>
      simp only [SimonSays.checkGesture, Bool.and_eq_true, decide_eq_true_eq,
        gt_iff_lt, and_assoc] at h1 h2
      exact ss_up_down_absurd _ _ _ (abs_nonneg _) h2.2.2.1 h1.2.2.1
    case two.two => exact hne rfl
    case two.rock =>
      simp only [SimonSays.checkGesture, Bool.and_eq_true, decide_eq_true_eq,
        gt_iff_lt, and_assoc] at h1 h2
      exact ss_up_down_absurd _ _ _ (abs_nonneg _) h1.2.1 h2.2.1
    case two.thumbsUp =>
      simp only [SimonSays.checkGesture, Bool.and_eq_true, decide_eq_true_eq,
        gt_iff_lt, and_assoc] at h1 h2
      exact ss_up_down_absurd _ _ _ (abs_nonneg _) h1.1 h2.2.1
    case two.fist =>
      simp only [SimonSays.checkGesture, Bool.and_eq_true, decide_eq_true_eq,
        gt_iff_lt, and_assoc] at h1 h2
      exact ss_up_down_absurd _ _ _ (abs_nonneg _) h1.1 h2.1
    case rock.openHand =>
      simp only [SimonSays.checkGesture, Bool.and_eq_true, decide_eq_true_eq,
        gt_iff_lt, and_assoc] at h1 h2
      exact ss_up_down_absurd _ _ _ (abs_nonneg _) h2.2.1 h1.2.1
    case rock.two =>
      simp only [SimonSays.checkGesture, Bool.and_eq_true, decide_eq_true_eq,
        gt_iff_lt, and_assoc] at h1 h2
      exact ss_up_down_absurd _ _ _ (abs_nonneg _) h2.2.1 h1.2.1
    case rock.rock => exact hne rfl
    case rock.thumbsUp =>
      simp only [SimonSays.checkGesture, Bool.and_eq_true, decide_eq_true_eq,
        gt_iff_lt, and_assoc] at h1 h2
      exact ss_up_down_absurd _ _ _ (abs_nonneg _) h1.1 h2.2.1
    case rock.fist =>
      simp only [SimonSays.checkGesture, Bool.and_eq_true, decide_eq_true_eq,
        gt_iff_lt, and_assoc] at h1 h2
      exact ss_up_down_absurd _ _ _ (abs_nonneg _) h1.1 h2.1
    case thumbsUp.openHand =>
      simp only [SimonSays.checkGesture, Bool.and_eq_true, decide_eq_true_eq,
        gt_iff_lt, and_assoc] at h1 h2
      exact ss_up_down_absurd _ _ _ (abs_nonneg _) h2.1 h1.2.1
    case thumbsUp.two =>
      simp only [SimonSays.checkGesture, Bool.and_eq_true, decide_eq_true_eq,
        gt_iff_lt, and_assoc] at h1 h2
      exact ss_up_down_absurd _ _ _ (abs_nonneg _) h2.1 h1.2.1
    case thumbsUp.rock =>
      simp only [SimonSays.checkGesture, Bool.and_eq_true, decide_eq_true_eq,
        gt_iff_lt, and_assoc] at h1 h2
      exact ss_up_down_absurd _ _ _ (abs_nonneg _) h2.1 h1.2.1
    case thumbsUp.thumbsUp => exact hne rfl
    case thumbsUp.fist =>
      simp only [SimonSays.checkGesture, Bool.and_eq_true, decide_eq_true_eq,
        gt_iff_lt, and_assoc] at h1 h2
      exact ss_up_down_absurd _ _ _ (abs_nonneg _) h1.1 h2.2.2.2.2
    case fist.openHand =>
      simp only [SimonSays.checkGesture, Bool.and_eq_true, decide_eq_true_eq,
        gt_iff_lt, and_assoc] at h1 h2
      exact ss_up_down_absurd _ _ _ (abs_nonneg _) h2.1 h1.1
    case fist.two =>
      simp only [SimonSays.checkGesture, Bool.and_eq_true, decide_eq_true_eq,
        gt_iff_lt, and_assoc] at h1 h2
      exact ss_up_down_absurd _ _ _ (abs_nonneg _) h2.1 h1.1
    case fist.rock =>
      simp only [SimonSays.checkGesture, Bool.and_eq_true, decide_eq_true_eq,
        gt_iff_lt, and_assoc] at h1 h2
      exact ss_up_down_absurd _ _ _ (abs_nonneg _) h2.1 h1.1
    case fist.thumbsUp =>
      simp only [SimonSays.checkGesture, Bool.and_eq_true, decide_eq_true_eq,
        gt_iff_lt, and_assoc] at h1 h2
      exact ss_up_down_absurd _ _ _ (abs_nonneg _) h2.1 h1.2.2.2.2
    case fist.fist => exact hne rfl
  · intro lm g₁ g₂ h1 h2
    cases g₁ <;> cases g₂
    case openHand.openHand => exact Or.inl rfl
    case openHand.two =>
      simp only [MemoryMatch.checkGesture, Bool.and_eq_true, decide_eq_true_eq,
        gt_iff_lt, and_assoc] at h1 h2
      exact (mm_up_down_absurd _ _ h1.2.2.1 h2.2.2.1).elim
    case openHand.rock =>
      simp only [MemoryMatch.checkGesture, Bool.and_eq_true, decide_eq_true_eq,
        gt_iff_lt, and_assoc] at h1 h2
      exact (mm_up_down_absurd _ _ h1.2.1 h2.2.1).elim
    case openHand.thumbsUp =>
      simp only [MemoryMatch.checkGesture, Bool.and_eq_true, decide_eq_true_eq,
        gt_iff_lt, and_assoc] at h1 h2
      exact (mm_up_down_absurd _ _ h1.1 h2.2.1).elim
    case openHand.fist =>
      simp only [MemoryMatch.checkGesture, Bool.and_eq_true, decide_eq_true_eq,
        gt_iff_lt, and_assoc] at h1 h2
      exact (mm_up_down_absurd _ _ h1.1 h2.1).elim
    case two.openHand =>
      simp only [MemoryMatch.checkGesture, Bool.and_eq_true, decide_eq_true_eq,
        gt_iff_lt, and_assoc] at h1 h2
      exact (mm_up_down_absurd _ _ h2.2.2.1 h1.2.2.1).elim
    case two.two => exact Or.inl rfl
    case two.rock =>
      simp only [MemoryMatch.checkGesture, Bool.and_eq_true, decide_eq_true_eq,
        gt_iff_lt, and_assoc] at h1 h2
      exact (mm_up_down_absurd _ _ h1.2.1 h2.2.1).elim
    case two.thumbsUp =>
      simp only [MemoryMatch.checkGesture, Bool.and_eq_true, decide_eq_true_eq,
        gt_iff_lt, and_assoc] at h1 h2
      exact (mm_up_down_absurd _ _ h1.1 h2.2.1).elim
    case two.fist =>
      simp only [MemoryMatch.checkGesture, Bool.and_eq_true, decide_eq_true_eq,
        gt_iff_lt, and_assoc] at h1 h2
      exact (mm_up_down_absurd _ _ h1.1 h2.1).elim
    case rock.openHand =>
      simp only [MemoryMatch.checkGesture, Bool.and_eq_true, decide_eq_true_eq,
        gt_iff_lt, and_assoc] at h1 h2
      exact (mm_up_down_absurd _ _ h2.2.1 h1.2.1).elim
    case rock.two =>
      simp only [MemoryMatch.checkGesture, Bool.and_eq_true, decide_eq_true_eq,
        gt_iff_lt, and_assoc] at h1 h2
      exact (mm_up_down_absurd _ _ h2.2.1 h1.2.1).elim
    case rock.rock => exact Or.inl rfl
    case rock.thumbsUp =>
      simp only [MemoryMatch.checkGesture, Bool.and_eq_true, decide_eq_true_eq,
        gt_iff_lt, and_assoc] at h1 h2
      exact (mm_up_down_absurd _ _ h1.1 h2.2.1).elim
    case rock.fist =>
      simp only [MemoryMatch.checkGesture, Bool.and_eq_true, decide_eq_true_eq,
        gt_iff_lt, and_assoc] at h1 h2
      exact (mm_up_down_absurd _ _ h1.1 h2.1).elim
    case thumbsUp.openHand =>
      simp only [MemoryMatch.checkGesture, Bool.and_eq_true, decide_eq_true_eq,
        gt_iff_lt, and_assoc] at h1 h2
      exact (mm_up_down_absurd _ _ h2.1 h1.2.1).elim
    case thumbsUp.two =>
      simp only [MemoryMatch.checkGesture, Bool.and_eq_true, decide_eq_true_eq,
        gt_iff_lt, and_assoc] at h1 h2
      exact (mm_up_down_absurd _ _ h2.1 h1.2.1).elim
    case thumbsUp.rock =>
      simp only [MemoryMatch.checkGesture, Bool.and_eq_true, decide_eq_true_eq,
        gt_iff_lt, and_assoc] at h1 h2
      exact (mm_up_down_absurd _ _ h2.1 h1.2.1).elim
    case thumbsUp.thumbsUp => exact Or.inl rfl
    case thumbsUp.fist => exact Or.inr (Or.inl ⟨rfl, rfl⟩)
    case fist.openHand =>
      simp only [MemoryMatch.checkGesture, Bool.and_eq_true, decide_eq_true_eq,
        gt_iff_lt, and_assoc] at h1 h2
      exact (mm_up_down_absurd _ _ h2.1 h1.1).elim
    case fist.two =>
      simp only [MemoryMatch.checkGesture, Bool.and_eq_true, decide_eq_true_eq,
        gt_iff_lt, and_assoc] at h1 h2
      exact (mm_up_down_absurd _ _ h2.1 h1.1).elim
    case fist.rock =>
      simp only [MemoryMatch.checkGesture, Bool.and_eq_true, decide_eq_true_eq,
        gt_iff_lt, and_assoc] at h1 h2
      exact (mm_up_down_absurd _ _ h2.1 h1.1).elim
    case fist.thumbsUp => exact Or.inr (Or.inr ⟨rfl, rfl⟩)
    case fist.fist => exact Or.inl rfl

/-- The overlapping configuration satisfies the MemoryMatch ThumbsUp rule. -/
theorem overlap_thumbsUp :
    MemoryMatch.checkGesture overlapLandmarks Gesture.thumbsUp = true := by
  norm_num [MemoryMatch.checkGesture, overlapLandmarks]
  rw [abs_of_nonneg (by norm_num : (0 : ℚ) ≤ 1 / 5)]
  norm_num

/-- The overlapping configuration satisfies the MemoryMatch Fist rule. -/
theorem overlap_fist :
    MemoryMatch.checkGesture overlapLandmarks Gesture.fist = true := by
  norm_num [MemoryMatch.checkGesture, overlapLandmarks]

/-- C7 counterexample: one landmark configuration satisfies both the
ThumbsUp and the Fist predicate of the MemoryMatch classifier, so the
classification rules are not mutually exclusive as claimed. -/
theorem c7_counterexample_thumbs_fist_overlap :
    MemoryMatch.checkGesture overlapLandmarks Gesture.thumbsUp = true ∧
    MemoryMatch.checkGesture overlapLandmarks Gesture.fist = true :=
  ⟨overlap_thumbsUp, overlap_fist⟩

/-- Witness for the amended C7 at a concrete landmark configuration. -/
theorem c7_rules_mutually_exclusive_witness :
    (¬(SimonSays.checkGesture overlapLandmarks Gesture.openHand = true ∧
       SimonSays.checkGesture overlapLandmarks Gesture.two = true)) ∧
    (Gesture.thumbsUp = Gesture.fist ∨
      (Gesture.thumbsUp = Gesture.thumbsUp ∧ Gesture.fist = Gesture.fist) ∨
      (Gesture.thumbsUp = Gesture.fist ∧ Gesture.fist = Gesture.thumbsUp)) :=
  ⟨c7_rules_mutually_exclusive_except_mm_thumbs_fist.1 overlapLandmarks
      Gesture.openHand Gesture.two (by decide),
   c7_rules_mutually_exclusive_except_mm_thumbs_fist.2 overlapLandmarks
      Gesture.thumbsUp Gesture.fist overlap_thumbsUp overlap_fist⟩

/-! ## MemoryMatch sequence behaviour (C5) -/

/-- Completing the 2-element round at step 1 with a matching gesture
emits scoreDelta 1 and clears the sequence. -/
theorem mm_complete_step :
    MemoryMatch.detectStep ⟨[Gesture.fist, Gesture.fist], 1, 0⟩ 100
      (Gesture.openHand, Gesture.openHand) (some overlapLandmarks) =
      (⟨[], 0, 0⟩, 1) := by
  simp [MemoryMatch.detectStep, MemoryMatch.ROUND_TIME, overlap_fist]

/-- C5 counterexample: after the player completes the 2-element sequence
(earning scoreDelta 1), the next round generated on the following tick
again has exactly 2 elements, not one more than the completed sequence. -/
theorem c5_counterexample_sequence_does_not_grow :
    (MemoryMatch.detectStep ⟨[Gesture.fist, Gesture.fist], 1, 0⟩ 100
      (Gesture.openHand, Gesture.openHand) (some overlapLandmarks)).2 = 1 ∧
    (MemoryMatch.detectStep
        (MemoryMatch.detectStep ⟨[Gesture.fist, Gesture.fist], 1, 0⟩ 100
          (Gesture.openHand, Gesture.openHand) (some overlapLandmarks)).1 200
        (Gesture.openHand, Gesture.two) none).1.seq.length = 2 ∧
    (MemoryMatch.detectStep
        (MemoryMatch.detectStep ⟨[Gesture.fist, Gesture.fist], 1, 0⟩ 100
          (Gesture.openHand, Gesture.openHand) (some overlapLandmarks)).1 200
        (Gesture.openHand, Gesture.two) none).1.seq.length ≠
      ([Gesture.fist, Gesture.fist] : List Gesture).length + 1 := by
  rw [mm_complete_step]
  refine ⟨rfl, ?_, ?_⟩ <;>
    simp [MemoryMatch.detectStep, MemoryMatch.ROUND_TIME]

/-- C5 amended: completing the current sequence emits scoreDelta 1 and
clears the sequence and cursor; every newly generated round sequence has
length exactly 2 (a fresh random pair), so the target sequence never
grows from round to round. -/
theorem c5_sequence_fresh_not_growing :
    (∀ (st : MemoryMatch.MMState) (now : ℕ) (rand : Gesture × Gesture)
        (lm : Option Landmarks),
      (MemoryMatch.detectStep st now rand lm).2 = 1 →
        (MemoryMatch.detectStep st now rand lm).1.seq = [] ∧
        (MemoryMatch.detectStep st now rand lm).1.step = 0) ∧
    (∀ (st : MemoryMatch.MMState) (now : ℕ) (rand : Gesture × Gesture)
        (lm : Option Landmarks),
      st.seq = [] → (MemoryMatch.detectStep st now rand lm).1.seq.length = 2) := by
  constructor
  · intro st now rand lm h
    cases lm with
    | none =>
        exfalso
        simp [MemoryMatch.detectStep] at h
    | some l =>
        simp only [MemoryMatch.detectStep] at h ⊢
        split_ifs at h ⊢ <;> simp_all
  · intro st now rand lm hseq
    cases lm with
    | none => simp [MemoryMatch.detectStep, hseq]
    | some l =>
        simp only [MemoryMatch.detectStep, hseq, List.length_nil, true_or, if_pos]
        split_ifs <;> simp_all

/-- Witness for the amended C5 at the concrete completing input. -/
theorem c5_sequence_fresh_not_growing_witness :
    ((MemoryMatch.detectStep ⟨[Gesture.fist, Gesture.fist], 1, 0⟩ 100
        (Gesture.openHand, Gesture.openHand) (some overlapLandmarks)).1.seq = [] ∧
      (MemoryMatch.detectStep ⟨[Gesture.fist, Gesture.fist], 1, 0⟩ 100
        (Gesture.openHand, Gesture.openHand) (some overlapLandmarks)).1.step = 0) ∧
    (MemoryMatch.detectStep ⟨[], 0, 0⟩ 200 (Gesture.openHand, Gesture.two)
      none).1.seq.length = 2 :=
  ⟨c5_sequence_fresh_not_growing.1 ⟨[Gesture.fist, Gesture.fist], 1, 0⟩ 100
      (Gesture.openHand, Gesture.openHand) (some overlapLandmarks)
      (by rw [mm_complete_step]),
   c5_sequence_fresh_not_growing.2 ⟨[], 0, 0⟩ 200 (Gesture.openHand, Gesture.two)
      none rfl⟩

/-! ## DirectionalSwipe behaviour (C9) -/

/-- C9: once a swipe exceeds the 80 px displacement threshold within an
active round, the classified direction is the dominant axis with its
sign, the emitted score delta is 1 exactly when it matches the prompt,
and in both cases the prompt and the swipe start are reset so that the
next tick starts a new round; in particular (100, 10) classifies right
and (10, 100) classifies down. -/
theorem c9_directional_swipe_classification (st : SwipeChallenge.SWState)
    (now : ℕ) (rand : SwipeChallenge.Direction) (width height : ℝ)
    (t s0 : Pt) (d : SwipeChallenge.Direction)
    (hdir : st.currentDirection = some d)
    (htimer : now - st.roundTimer ≤ SwipeChallenge.ROUND_TIME * 1000)
    (hstart : st.swipeStart = some s0)
    (hdist : hypot (t.x * width - s0.x) (t.y * height - s0.y) > 80) :
    (SwipeChallenge.detectStep st now rand width height (some t)).2 =
      (if SwipeChallenge.getSwipeDirection (t.x * width - s0.x) (t.y * height - s0.y) = d
       then 1 else 0) ∧
    (SwipeChallenge.detectStep st now rand width height (some t)).1.currentDirection =
      none ∧
    (SwipeChallenge.detectStep st now rand width height (some t)).1.swipeStart = none ∧
    SwipeChallenge.getSwipeDirection 100 10 = SwipeChallenge.Direction.right ∧
    SwipeChallenge.getSwipeDirection 10 100 = SwipeChallenge.Direction.down := by
  have hnotnew : ¬(st.currentDirection = none ∨
      SwipeChallenge.ROUND_TIME * 1000 < now - st.roundTimer) := by
    rintro (h | h)
    · rw [hdir] at h
      cases h
    · omega
  have hright : SwipeChallenge.getSwipeDirection 100 10 =
      SwipeChallenge.Direction.right := by
    unfold SwipeChallenge.getSwipeDirection
    rw [if_pos (by rw [abs_of_pos, abs_of_pos] <;> norm_num)]
    rw [if_pos (by norm_num)]
  have hdown : SwipeChallenge.getSwipeDirection 10 100 =
      SwipeChallenge.Direction.down := by
    unfold SwipeChallenge.getSwipeDirection
    rw [if_neg (by rw [abs_of_pos, abs_of_pos] <;> norm_num)]
    rw [if_pos (by norm_num)]
  simp only [SwipeChallenge.detectStep]
  rw [if_neg hnotnew, hstart]
  simp only [if_pos hdist, hdir]
  refine ⟨?_, ?_, ?_, hright, hdown⟩ <;> simp [Option.some.injEq]

/-- Witness for C9: matching right-swipe of displacement (100, 10). -/
theorem c9_directional_swipe_classification_witness :
    (SwipeChallenge.detectStep ⟨some SwipeChallenge.Direction.right, some ⟨0, 0⟩, 0⟩
        100 SwipeChallenge.Direction.left 1 1 (some ⟨100, 10⟩)).2 =
      (if SwipeChallenge.getSwipeDirection ((100 : ℝ) * 1 - 0) ((10 : ℝ) * 1 - 0) =
          SwipeChallenge.Direction.right then 1 else 0) ∧
    (SwipeChallenge.detectStep ⟨some SwipeChallenge.Direction.right, some ⟨0, 0⟩, 0⟩
        100 SwipeChallenge.Direction.left 1 1
        (some ⟨100, 10⟩)).1.currentDirection = none ∧
    (SwipeChallenge.detectStep ⟨some SwipeChallenge.Direction.right, some ⟨0, 0⟩, 0⟩
        100 SwipeChallenge.Direction.left 1 1 (some ⟨100, 10⟩)).1.swipeStart = none ∧
    SwipeChallenge.getSwipeDirection 100 10 = SwipeChallenge.Direction.right ∧
    SwipeChallenge.getSwipeDirection 10 100 = SwipeChallenge.Direction.down :=
  c9_directional_swipe_classification ⟨some SwipeChallenge.Direction.right, some ⟨0, 0⟩, 0⟩
    100 SwipeChallenge.Direction.left 1 1 ⟨100, 10⟩ ⟨0, 0⟩
    SwipeChallenge.Direction.right rfl (by norm_num [SwipeChallenge.ROUND_TIME]) rfl
    (by
      have he : ((100 : ℝ) * 1 - 0) = 100 := by norm_num
      have he2 : ((10 : ℝ) * 1 - 0) = 10 := by norm_num
      rw [show ((⟨100, 10⟩ : Pt).x * 1 - (⟨0, 0⟩ : Pt).x) = 100 by norm_num,
        show ((⟨100, 10⟩ : Pt).y * 1 - (⟨0, 0⟩ : Pt).y) = 10 by norm_num]
      rw [hypot, gt_iff_lt, Real.lt_sqrt (by norm_num)]
      norm_num)

/-! ## BallGame debounce (C4) -/

theorem tapBalls_enum :
    BallGame.tapBalls.enum =
      [(0, (⟨100, 100⟩ : Pt)), (1, ⟨400, 100⟩), (2, ⟨700, 100⟩), (3, ⟨1000, 100⟩)] := rfl

theorem tap_dist_hit : hypot 0 0 < BallGame.BALL_RADIUS := by
  rw [hypot_zero, BallGame.BALL_RADIUS]
  norm_num

theorem tap_dist_miss (a : ℝ) (ha : 300 ≤ a) :
    ¬ hypot a 0 < BallGame.BALL_RADIUS := by
  rw [hypot_x_zero, BallGame.BALL_RADIUS]
  rw [abs_of_pos (by linarith)]
  push_neg
  linarith

/-- First frame: fingertip on ball 0, no touch registered yet; the tap is
registered and one feedback timeout is scheduled for t+500. -/
theorem c4_first_tap :
    BallGame.detectStep BallGame.tapState 1000 1 1 [] 0 (some ⟨100, 100⟩) =
      (⟨BallGame.tapBalls, [0], BallGame.BGPhase.input, 1, 0, 0, some 0, some true,
        [1000 + BallGame.FEEDBACK_TIME]⟩, BallGame.ScoreEff.keep) := by
  have hm3 := tap_dist_miss 300 (by norm_num)
  have hm6 := tap_dist_miss 600 (by norm_num)
  have hm9 := tap_dist_miss 900 (by norm_num)
  simp only [BallGame.detectStep, BallGame.tapState]
  norm_num [tapBalls_enum, BallGame.jsFalsy, tap_dist_hit, hm3, hm6, hm9,
    BallGame.FLASH_TIME, BallGame.WAIT_TIME,
    show (BallGame.BGPhase.input = BallGame.BGPhase.init) = False from by decide,
    show (BallGame.BGPhase.input = BallGame.BGPhase.showPhase) = False from by decide]

/-- Second frame, 200 ms later (before the first timeout fires): because
the registered index 0 is falsy, the guard treats the touch as new and a
second timeout is scheduled while the first is still pending. -/
theorem c4_second_tap :
    BallGame.detectStep ⟨BallGame.tapBalls, [0], BallGame.BGPhase.input, 1, 0, 0,
        some 0, some true, [1000 + BallGame.FEEDBACK_TIME]⟩ 1200 1 1 [] 0
        (some ⟨100, 100⟩) =
      (⟨BallGame.tapBalls, [0], BallGame.BGPhase.input, 1, 0, 0, some 0, some true,
        [1000 + BallGame.FEEDBACK_TIME, 1200 + BallGame.FEEDBACK_TIME]⟩,
        BallGame.ScoreEff.keep) := by
  have hm3 := tap_dist_miss 300 (by norm_num)
  have hm6 := tap_dist_miss 600 (by norm_num)
  have hm9 := tap_dist_miss 900 (by norm_num)
  simp only [BallGame.detectStep]
  norm_num [tapBalls_enum, BallGame.jsFalsy, tap_dist_hit, hm3, hm6, hm9,
    BallGame.FLASH_TIME, BallGame.WAIT_TIME,
    show (BallGame.BGPhase.input = BallGame.BGPhase.init) = False from by decide,
    show (BallGame.BGPhase.input = BallGame.BGPhase.showPhase) = False from by decide]

/-- C4 (code behaviour at the failing input): holding the fingertip on
ball 0 across two Input-phase frames schedules a second feedback timeout
at t=1200 although the first, scheduled at t=1000, is still pending
(1200 < 1500) and the finger never left the ball: two deferred
transitions are pending at once, so the debounce fails for ball index 0. -/
theorem c4_double_timeout_for_ball_zero :
    (BallGame.detectStep (BallGame.detectStep BallGame.tapState 1000 1 1 [] 0
        (some ⟨100, 100⟩)).1 1200 1 1 [] 0 (some ⟨100, 100⟩)).1.pending =
      [1000 + BallGame.FEEDBACK_TIME, 1200 + BallGame.FEEDBACK_TIME] ∧
    (BallGame.detectStep BallGame.tapState 1000 1 1 [] 0
      (some ⟨100, 100⟩)).1.tappedIdx = some 0 ∧
    (BallGame.detectStep BallGame.tapState 1000 1 1 [] 0
      (some ⟨100, 100⟩)).1.feedback = some true ∧
    1200 < 1000 + BallGame.FEEDBACK_TIME := by
  rw [c4_first_tap]
  rw [c4_second_tap]
  refine ⟨rfl, rfl, rfl, by norm_num [BallGame.FEEDBACK_TIME]⟩

/-! ## Score effects (C3) -/

/-- C3 counterexample: a BallGame tick in the Init phase calls
setScore(0); with a prior session score of 5 the displayed score drops to
0, so the score is not monotonically non-decreasing across BallGame Init. -/
theorem c3_counterexample_ballgame_init_resets_score :
    BallGame.applyScoreEff
      (BallGame.detectStep ⟨[], [], BallGame.BGPhase.init, 0, 0, 0, none, none, []⟩
        50 1 1 [] 2 none).2 5 = 0 ∧ (0 : ℕ) < 5 := by
  constructor
  · have heff : (BallGame.detectStep
        ⟨[], [], BallGame.BGPhase.init, 0, 0, 0, none, none, []⟩
        50 1 1 [] 2 none).2 = BallGame.ScoreEff.setZero := by
      simp [BallGame.detectStep]
    rw [heff]
    rfl
  · norm_num

/-- C3 amended: every variant only ever emits score deltas of 0 or +1 per
tick (the deferred BallGame feedback callback likewise emits 0 or +1),
with the single exception of BallGame Init, whose synchronous score
effect is exactly setScore(0); applying any non-setZero effect never
decreases the score. -/
theorem c3_score_monotone_except_ballgame_init :
    (∀ (st : ShapeTracing.STState) (f : ShapeTracing.STFrame),
      (ShapeTracing.detectStep st f).2 ≤ 1) ∧
    (∀ (st : MemoryMatch.MMState) (now : ℕ) (rand : Gesture × Gesture)
        (lm : Option Landmarks), (MemoryMatch.detectStep st now rand lm).2 ≤ 1) ∧
    (∀ (st : SwipeChallenge.SWState) (now : ℕ) (rand : SwipeChallenge.Direction)
        (w h : ℝ) (tip : Option Pt),
      (SwipeChallenge.detectStep st now rand w h tip).2 ≤ 1) ∧
    (∀ (st : SimonSays.SimState) (now : ℕ) (rand : Gesture)
        (lm : Option Landmarks), (SimonSays.detectStep st now rand lm).2 ≤ 1) ∧
    (∀ (st : QuickReaction.QRState) (now : ℕ) (rp : Pt) (w h : ℝ)
        (tip : Option Pt), (QuickReaction.detectStep st now rp w h tip).2 ≤ 1) ∧
    (∀ (st : BallGame.BGState) (now : ℕ) (w h : ℝ) (rb : List Pt) (rs : ℕ)
        (tip : Option Pt),
      (BallGame.detectStep st now w h rb rs tip).2 =
        (if st.gameState = BallGame.BGPhase.init then BallGame.ScoreEff.setZero
         else BallGame.ScoreEff.keep)) ∧
    (∀ (st : BallGame.BGState) (fireNow rs : ℕ),
      (BallGame.fireTimeout st fireNow rs).2 = BallGame.ScoreEff.keep ∨
      (BallGame.fireTimeout st fireNow rs).2 = BallGame.ScoreEff.plusOne) ∧
    (∀ (s : ℕ) (eff : BallGame.ScoreEff), eff ≠ BallGame.ScoreEff.setZero →
      s ≤ BallGame.applyScoreEff eff s) := by
  refine ⟨?_, ?_, ?_, ?_, ?_, ?_, ?_, ?_⟩
  · intro st f
    simp only [ShapeTracing.detectStep]
    split <;> simp
  · intro st now rand lm
    cases lm with
    | none => simp [MemoryMatch.detectStep]
    | some l =>
        simp only [MemoryMatch.detectStep]
        split_ifs <;> simp
  · intro st now rand w h tip
    cases tip with
    | none => simp [SwipeChallenge.detectStep]
    | some t =>
        simp only [SwipeChallenge.detectStep]
        split
        · simp
        · split_ifs <;> simp
  · intro st now rand lm
    cases lm with
    | none => simp [SimonSays.detectStep]
    | some l =>
        simp only [SimonSays.detectStep]
        split_ifs <;> simp
  · intro st now rp w h tip
    cases tip with
    | none => simp [QuickReaction.detectStep]
    | some t =>
        simp only [QuickReaction.detectStep]
        split
        · simp
        · split_ifs <;> simp
  · intro st now w h rb rs tip
    simp only [BallGame.detectStep]
    split_ifs <;> rfl
  · intro st fireNow rs
    simp only [BallGame.fireTimeout]
    split_ifs <;> simp
  · intro s eff h
    cases eff with
    | keep => exact le_refl s
    | setZero => exact absurd rfl h
    | plusOne => exact Nat.le_succ s

/-- Witness for the amended C3: applying a plusOne effect to score 5. -/
theorem c3_score_monotone_witness :
    (5 : ℕ) ≤ BallGame.applyScoreEff BallGame.ScoreEff.plusOne 5 :=
  c3_score_monotone_except_ballgame_init.2.2.2.2.2.2.2 5 BallGame.ScoreEff.plusOne
    (by decide)

/-! ## No-landmark ticks (C8) -/

/-- C8 counterexample: a tick with no landmarks present, arriving after
the MemoryMatch round timer expired, re-initialises the round and resets
the sequence cursor from 1 to 0, so advance does mutate a cursor on a
no-landmark tick. -/
theorem c8_counterexample_expiry_resets_cursor :
    (MemoryMatch.detectStep ⟨[Gesture.fist, Gesture.fist], 1, 0⟩ 9000
      (Gesture.openHand, Gesture.openHand) none).1.step = 0 ∧
    (⟨[Gesture.fist, Gesture.fist], 1, 0⟩ : MemoryMatch.MMState).step = 1 := by
  constructor
  · simp [MemoryMatch.detectStep, MemoryMatch.ROUND_TIME]
  · rfl

/-- C8 amended: on a tick with no landmarks, no variant adds a checkpoint
to a hit set, emits a score delta (BallGame: never a plusOne effect, and
no feedback timeout is scheduled), and no cursor is advanced; however,
round-timer expiry and phase transitions still run on such ticks and may
reset a cursor to 0 (MemoryMatch re-init, BallGame Show-to-Input or
Init). -/
theorem c8_no_landmark_tick_adds_nothing :
    (∀ (st : ShapeTracing.STState) (f : ShapeTracing.STFrame), f.tip = none →
      st.checkpointsHit.card < ShapeTracing.scoreThreshold →
      (ShapeTracing.detectStep st f).2 = 0 ∧
      (ShapeTracing.detectStep st f).1.checkpointsHit ⊆ st.checkpointsHit ∧
      (st.shapeType ≠ none →
        (ShapeTracing.detectStep st f).1.checkpointsHit = st.checkpointsHit)) ∧
    (∀ (st : MemoryMatch.MMState) (now : ℕ) (rand : Gesture × Gesture),
      (MemoryMatch.detectStep st now rand none).2 = 0 ∧
      ((MemoryMatch.detectStep st now rand none).1.step = st.step ∨
        (MemoryMatch.detectStep st now rand none).1.step = 0)) ∧
    (∀ (st : SwipeChallenge.SWState) (now : ℕ) (rand : SwipeChallenge.Direction)
        (w h : ℝ), (SwipeChallenge.detectStep st now rand w h none).2 = 0) ∧
    (∀ (st : SimonSays.SimState) (now : ℕ) (rand : Gesture),
      (SimonSays.detectStep st now rand none).2 = 0) ∧
    (∀ (st : QuickReaction.QRState) (now : ℕ) (rp : Pt) (w h : ℝ),
      (QuickReaction.detectStep st now rp w h none).2 = 0) ∧
    (∀ (st : BallGame.BGState) (now : ℕ) (w h : ℝ) (rb : List Pt) (rs : ℕ),
      (BallGame.detectStep st now w h rb rs none).2 ≠ BallGame.ScoreEff.plusOne ∧
      (BallGame.detectStep st now w h rb rs none).1.pending = st.pending ∧
      ((BallGame.detectStep st now w h rb rs none).1.inputIndex = st.inputIndex ∨
        (BallGame.detectStep st now w h rb rs none).1.inputIndex = 0)) := by
  refine ⟨?_, ?_, ?_, ?_, ?_, ?_⟩
  · intro st f htip hcard
    have hlt : ¬ ShapeTracing.scoreThreshold ≤ st.checkpointsHit.card := by omega
    cases hsh : st.shapeType with
    | none =>
        have hlt0 : ¬ ShapeTracing.scoreThreshold ≤ (∅ : Finset ℕ).card := by
          rw [ShapeTracing.scoreThreshold_eq]
          simp
        simp only [ShapeTracing.detectStep, hsh, htip]
        rw [if_neg hlt0]
        exact ⟨rfl, Finset.empty_subset _, fun h => absurd rfl h⟩
    | some sh =>
        simp only [ShapeTracing.detectStep, hsh, htip]
        rw [if_neg hlt]
        exact ⟨rfl, Finset.Subset.refl _, fun _ => rfl⟩
  · intro st now rand
    constructor
    · rfl
    · simp only [MemoryMatch.detectStep]
      split_ifs <;> simp
  · intro st now rand w h
    rfl
  · intro st now rand
    rfl
  · intro st now rp w h
    rfl
  · intro st now w h rb rs
    refine ⟨?_, ?_, ?_⟩
    · simp only [BallGame.detectStep]
      split_ifs <;> simp
    · simp only [BallGame.detectStep]
      split_ifs <;> rfl
    · simp only [BallGame.detectStep]
      split_ifs <;> simp

/-- Witness for the amended C8 at concrete no-landmark inputs. -/
theorem c8_no_landmark_tick_witness :
    ((ShapeTracing.detectStep ⟨some ShapeTracing.ShapeType.circle, ∅, [], false⟩
        ⟨1000, 1000, 0, none, ShapeTracing.ShapeType.circle⟩).2 = 0 ∧
      (ShapeTracing.detectStep ⟨some ShapeTracing.ShapeType.circle, ∅, [], false⟩
        ⟨1000, 1000, 0, none, ShapeTracing.ShapeType.circle⟩).1.checkpointsHit ⊆ ∅ ∧
      ((⟨some ShapeTracing.ShapeType.circle, ∅, [], false⟩ : ShapeTracing.STState).shapeType ≠ none →
        (ShapeTracing.detectStep ⟨some ShapeTracing.ShapeType.circle, ∅, [], false⟩
          ⟨1000, 1000, 0, none, ShapeTracing.ShapeType.circle⟩).1.checkpointsHit = ∅)) ∧
    (SwipeChallenge.detectStep ⟨none, none, 0⟩ 0 SwipeChallenge.Direction.left
      1 1 none).2 = 0 :=
  ⟨c8_no_landmark_tick_adds_nothing.1 ⟨some ShapeTracing.ShapeType.circle, ∅, [], false⟩
      ⟨1000, 1000, 0, none, ShapeTracing.ShapeType.circle⟩ rfl
      (by rw [ShapeTracing.scoreThreshold_eq]; simp),
   c8_no_landmark_tick_adds_nothing.2.2.1 ⟨none, none, 0⟩ 0
      SwipeChallenge.Direction.left 1 1⟩

end HandGames
